import Mathlib

/-!
# satwatch-go: template store, page renderer, logging decorator, configuration, lifecycle

A shallow embedding of `internal/handlers/pages.go`, `cmd/server/main.go` and
`internal/config/config.go`.

Conventions of the embedding

* Pointer receivers become explicit state passing: a method returns the new
  receiver next to its result.
* The Go standard library is not part of the repository.  Its operations are
  taken as parameters: `Engine` (html/template), `Disk` (what the parser finds on
  the file system at the instant of a call) and `ResponseWriter` (the
  `http.ResponseWriter` interface).  Theorems quantify over these parameters;
  concrete instances (`recorder`, `treeDisk`, `treeEngine`) are used where a statement
  needs an observable response or an explicit directory.
* The `sync.RWMutex` of `PageHandler` has no sequential meaning and is left out of
  the sequential definitions; the section on concurrent calls models it together
  with the interleaving of goroutines.
* A run-time panic is the value `none` of an `Option` result.
-/

namespace SatWatch

/-! ## Shared vocabulary -/

/-- Go `error` values are represented by their message. -/
abbrev Error := String

/-- Go strings are byte sequences; a request path is kept as its bytes because
`len` and slicing count bytes. -/
abbrev GoString := List UInt8

/-- Values attached to a structured log record. -/
inductive LogValue where
  | str (s : String)
  | bytes (b : GoString)
  | int (n : Int)
  | dur (d : Nat)
deriving DecidableEq, Repr

/-- One `slog` record: level, message and key/value attributes. -/
structure LogRecord where
  level : String
  msg : String
  attrs : List (String × LogValue)
deriving DecidableEq, Repr

/-- The part of `*http.Request` the program reads. -/
structure Request where
  Method : String
  Path : GoString
deriving DecidableEq, Repr

/-! ## The `http.ResponseWriter` interface -/

/-- The methods of `http.ResponseWriter` over a writer state `σ`.
`HeaderSet w k v` stands for `w.Header().Set(k, v)`.  `Write` is taken to accept
every chunk (it reports no error to its caller). -/
structure ResponseWriter (σ : Type) where
  HeaderSet : σ → String → String → σ
  Write : σ → String → σ
  WriteHeader : σ → Int → σ

/-- `http.StatusOK`. -/
def StatusOK : Int := 200

/-- `http.StatusInternalServerError`. -/
def StatusInternalServerError : Int := 500

/-- `http.Error(w, msg, code)`: plain-text content type, `nosniff`, the status
line, then the message followed by a newline. -/
def httpError {σ : Type} (W : ResponseWriter σ) (w : σ) (msg : String) (code : Int) : σ :=
  let w1 := W.HeaderSet w "Content-Type" "text/plain; charset=utf-8"
  let w2 := W.HeaderSet w1 "X-Content-Type-Options" "nosniff"
  let w3 := W.WriteHeader w2 code
  W.Write w3 (msg ++ "\n")

/-- One call made on a response writer. -/
inductive Call where
  | headerSet (k v : String)
  | write (chunk : String)
  | writeHeader (code : Int)
deriving DecidableEq, Repr

/-- Performs one call on a writer. -/
def Call.perform {σ : Type} (W : ResponseWriter σ) (w : σ) : Call → σ
  | .headerSet k v => W.HeaderSet w k v
  | .write chunk => W.Write w chunk
  | .writeHeader code => W.WriteHeader w code

/-- Performs a sequence of calls, first to last. -/
def performAll {σ : Type} (W : ResponseWriter σ) (w : σ) (calls : List Call) : σ :=
  calls.foldl (Call.perform W) w

/-! ## `internal/handlers/pages.go` -/

def templateGlob : String := "*.html"

def templateBaseName : String := "base.html"

def slogKeyError : String := "error"

/-- `filepath.Join`: the non-empty elements separated by a slash (the final
`Clean` of the joined path is not modelled; the result is only handed to the parser). -/
def filepathJoin (elems : List String) : String :=
  "/".intercalate (elems.filter (fun e => e ≠ ""))

/-- `PageData` holds the data common to all pages. -/
structure PageData where
  Title : String
  ActiveTab : String
deriving DecidableEq, Repr

/-- Outcome of `ExecuteTemplate`: the chunks it wrote to the writer, in order, and
the error it returned (if any).  Chunks can precede an error: execution streams. -/
structure ExecResult where
  output : List String
  err : Option Error
deriving DecidableEq, Repr

/-- The operations of `html/template` that do not read the file system, over
a type `τ` of template sets. -/
structure Engine (τ : Type) where
  New : String → τ
  ExecuteTemplate : τ → String → PageData → ExecResult

/-- The file system as the template parser sees it at the instant of one call:
`ParseGlob pattern` is `template.ParseGlob`, `ParseGlobInto t pattern` is the
method `t.ParseGlob(pattern)`. -/
structure Disk (τ : Type) where
  ParseGlob : String → Except Error τ
  ParseGlobInto : τ → String → Except Error τ

/-- `PageHandler` renders the HTML pages.  `templates = none` is the nil pointer. -/
structure PageHandler (τ : Type) where
  templates : Option τ
  devMode : Bool
  tmplDir : String

/-- `(*PageHandler).loadTemplates`: the new receiver and the returned error. -/
def loadTemplates {τ : Type} (E : Engine τ) (d : Disk τ) (h : PageHandler τ) :
    PageHandler τ × Option Error :=
  let pattern := filepathJoin [h.tmplDir, "**", templateGlob]
  match d.ParseGlob pattern with
  | .ok tmpl => ({ h with templates := some tmpl }, none)
  | .error _ =>
    let tmpl0 := E.New ""
    let layoutPattern := filepathJoin [h.tmplDir, "layouts", templateGlob]
    match d.ParseGlobInto tmpl0 layoutPattern with
    | .error err => (h, some err)
    | .ok tmpl1 =>
      let pagesPattern := filepathJoin [h.tmplDir, "pages", templateGlob]
      match d.ParseGlobInto tmpl1 pagesPattern with
      | .error err => (h, some err)
      | .ok tmpl2 =>
        let fragmentsPattern := filepathJoin [h.tmplDir, "partials", templateGlob]
        match d.ParseGlobInto tmpl2 fragmentsPattern with
        | .error err => (h, some err)
        | .ok tmpl3 => ({ h with templates := some tmpl3 }, none)

/-- `NewPageHandler(tmplDir, devMode)`. -/
def NewPageHandler {τ : Type} (E : Engine τ) (d : Disk τ) (tmplDir : String) (devMode : Bool) :
    Except Error (PageHandler τ) :=
  let h : PageHandler τ := { templates := none, devMode := devMode, tmplDir := tmplDir }
  match loadTemplates E d h with
  | (_, some err) => .error err
  | (h1, none) => .ok h1

/-- `(*PageHandler).render`: the new receiver, the writer after the call and the
log records emitted; `none` is the nil-pointer panic of executing an absent set. -/
def render {τ σ : Type} (E : Engine τ) (W : ResponseWriter σ) (d : Disk τ)
    (h : PageHandler τ) (w : σ) (name : String) (data : PageData) :
    Option (PageHandler τ × σ × List LogRecord) :=
  let reloaded : PageHandler τ × Option Error :=
    if h.devMode then loadTemplates E d h else (h, none)
  match reloaded with
  | (h1, some err) =>
    some (h1, httpError W w "Template error" StatusInternalServerError,
      [{ level := "ERROR", msg := "failed to reload templates",
         attrs := [(slogKeyError, .str err)] }])
  | (h1, none) =>
    let tmpl := h1.templates
    let w1 := W.HeaderSet w "Content-Type" "text/html; charset=utf-8"
    match tmpl with
    | none => none
    | some t =>
      let r := E.ExecuteTemplate t name data
      let w2 := r.output.foldl W.Write w1
      match r.err with
      | none => some (h1, w2, [])
      | some err =>
        some (h1, httpError W w2 "Render error" StatusInternalServerError,
          [{ level := "ERROR", msg := "failed to render template",
             attrs := [("name", .str name), (slogKeyError, .str err)] }])

/-- `(*PageHandler).Tracking`. -/
def Tracking {τ σ : Type} (E : Engine τ) (W : ResponseWriter σ) (d : Disk τ)
    (h : PageHandler τ) (w : σ) (_r : Request) : Option (PageHandler τ × σ × List LogRecord) :=
  let data : PageData := { Title := "Отслеживание - SatWatch", ActiveTab := "tracking" }
  render E W d h w templateBaseName data

/-- `(*PageHandler).Receiver`. -/
def Receiver {τ σ : Type} (E : Engine τ) (W : ResponseWriter σ) (d : Disk τ)
    (h : PageHandler τ) (w : σ) (_r : Request) : Option (PageHandler τ × σ × List LogRecord) :=
  let data : PageData := { Title := "Приёмник - SatWatch", ActiveTab := "receiver" }
  render E W d h w templateBaseName data

/-- `(*PageHandler).Simulation`. -/
def Simulation {τ σ : Type} (E : Engine τ) (W : ResponseWriter σ) (d : Disk τ)
    (h : PageHandler τ) (w : σ) (_r : Request) : Option (PageHandler τ × σ × List LogRecord) :=
  let data : PageData := { Title := "Имитация - SatWatch", ActiveTab := "simulation" }
  render E W d h w templateBaseName data

/-- The parse that `loadTemplates` is specified to perform (spec 4.1, `load`): one
recursive glob; if that fails, `layouts`, then `pages`, then `partials` into one
growing set, aborting at the first failing step. -/
def specLoad {τ : Type} (E : Engine τ) (d : Disk τ) (dir : String) : Except Error τ :=
  match d.ParseGlob (filepathJoin [dir, "**", "*.html"]) with
  | .ok t => .ok t
  | .error _ =>
    (d.ParseGlobInto (E.New "") (filepathJoin [dir, "layouts", "*.html"])).bind fun t1 =>
    (d.ParseGlobInto t1 (filepathJoin [dir, "pages", "*.html"])).bind fun t2 =>
    d.ParseGlobInto t2 (filepathJoin [dir, "partials", "*.html"])

/-! ## A recording writer (`httptest.ResponseRecorder`)

The tests of the repository observe responses through `httptest.NewRecorder()`.
The model keeps the contract of `http.ResponseWriter` they rely on: the first
status line wins, a body write without a status line implies 200, and the
header map is frozen when the status line is written.  (Content sniffing of a
missing `Content-Type` and the validity check of the code are not modelled.) -/

/-- `http.Header` with single values: `Set` replaces the value of a key or adds it. -/
def headerSet (m : List (String × String)) (k v : String) : List (String × String) :=
  (k, v) :: m.filter (fun kv => kv.1 ≠ k)

/-- `http.Header.Get` for a single-valued map. -/
def headerGet (m : List (String × String)) (k : String) : Option String :=
  (m.find? (fun kv => kv.1 = k)).map Prod.snd

/-- The state of `httptest.ResponseRecorder`. -/
structure ResponseRecorder where
  Code : Int
  HeaderMap : List (String × String)
  Body : List String
  wroteHeader : Bool
  snapHeader : Option (List (String × String))
deriving DecidableEq, Repr

/-- `httptest.NewRecorder()`. -/
def NewRecorder : ResponseRecorder :=
  { Code := 200, HeaderMap := [], Body := [], wroteHeader := false, snapHeader := none }

/-- `(*ResponseRecorder).WriteHeader`: ignored once a status line was written. -/
def ResponseRecorder.WriteHeader (rw : ResponseRecorder) (code : Int) : ResponseRecorder :=
  if rw.wroteHeader then rw
  else { rw with snapHeader := some rw.HeaderMap, Code := code, wroteHeader := true }

/-- `(*ResponseRecorder).Write`: writes the implicit 200 status line if none was
written, then appends to the body. -/
def ResponseRecorder.Write (rw : ResponseRecorder) (buf : String) : ResponseRecorder :=
  let rw1 := rw.WriteHeader 200
  { rw1 with Body := rw1.Body ++ [buf] }

/-- `rw.Header().Set(k, v)`. -/
def ResponseRecorder.HeaderSet (rw : ResponseRecorder) (k v : String) : ResponseRecorder :=
  { rw with HeaderMap := headerSet rw.HeaderMap k v }

/-- `(*ResponseRecorder).Result().StatusCode`: the status sent to the client. -/
def ResponseRecorder.StatusCode (rw : ResponseRecorder) : Int := rw.Code

/-- `(*ResponseRecorder).Result().Header`: the headers sent to the client, frozen at
the status line (or the current map if no status line was written). -/
def ResponseRecorder.ResultHeader (rw : ResponseRecorder) : List (String × String) :=
  match rw.snapHeader with
  | some m => m
  | none => rw.HeaderMap

/-- The recorder as an implementation of the `http.ResponseWriter` interface. -/
def recorder : ResponseWriter ResponseRecorder :=
  { HeaderSet := ResponseRecorder.HeaderSet
    Write := ResponseRecorder.Write
    WriteHeader := ResponseRecorder.WriteHeader }

/-- A writer that only remembers the calls made on it, in order. -/
def callLog : ResponseWriter (List Call) :=
  { HeaderSet := fun w k v => w ++ [Call.headerSet k v]
    Write := fun w chunk => w ++ [Call.write chunk]
    WriteHeader := fun w code => w ++ [Call.writeHeader code] }

/-! ## An explicit template directory

A concrete `Disk` and `Engine` for statements about a given directory tree.
`filepath.Glob` has no recursive wildcard: each star of `**` matches within one
path element, so `dir/**/*.html` selects the files exactly one directory
below `dir`. -/

/-- One step of a compiled template body. -/
inductive Node where
  | text (s : String)
  | title
  | activeTab
  | fail (msg : String)
deriving DecidableEq, Repr

/-- A template set: its named definitions. -/
structure Template where
  defs : List (String × List Node)
deriving DecidableEq, Repr

/-- A file `root/sub/name` whose name ends in `.html`.  `body = none` is a file
that does not parse; otherwise parsing defines `name` with that body and the
`defines` blocks of the file. -/
structure HtmlFile where
  root : String
  sub : String
  name : String
  body : Option (List Node)
  defines : List (String × List Node)
deriving DecidableEq, Repr

/-- Adds or replaces one named definition. -/
def Template.add (t : Template) (nd : String × List Node) : Template :=
  { defs := t.defs.filter (fun kv => kv.1 ≠ nd.1) ++ [nd] }

/-- `Lookup(name) != nil`. -/
def Template.defined (t : Template) (name : String) : Bool :=
  t.defs.any (fun kv => kv.1 = name)

/-- The glob of a pattern over the tree. -/
def globFiles (files : List HtmlFile) (pattern : String) : List HtmlFile :=
  files.filter fun f =>
    pattern = filepathJoin [f.root, "**", "*.html"] ∨
    pattern = filepathJoin [f.root, f.sub, "*.html"]

/-- Parses the given files into a set, stopping at the first malformed one. -/
def parseFiles (t : Template) : List HtmlFile → Except Error Template
  | [] => .ok t
  | f :: rest =>
    match f.body with
    | none => .error ("template: " ++ f.name ++ ": parse error")
    | some b => parseFiles (f.defines.foldl Template.add (t.add (f.name, b))) rest

/-- The method `t.ParseGlob(pattern)` over the tree: an error if nothing matches. -/
def parseGlobInto (files : List HtmlFile) (t : Template) (pattern : String) :
    Except Error Template :=
  match globFiles files pattern with
  | [] => .error ("html/template: pattern matches no files: " ++ pattern)
  | fs => parseFiles t fs

/-- The disk holding exactly the given files. -/
def treeDisk (files : List HtmlFile) : Disk Template :=
  { ParseGlob := fun pattern => parseGlobInto files { defs := [] } pattern
    ParseGlobInto := fun t pattern => parseGlobInto files t pattern }

/-- Executes a body: text and fields are written in order; a failing step
returns its error after what was already written. -/
def runNodes (data : PageData) : List Node → ExecResult
  | [] => { output := [], err := none }
  | .text s :: rest =>
    let r := runNodes data rest
    { r with output := s :: r.output }
  | .title :: rest =>
    let r := runNodes data rest
    { r with output := data.Title :: r.output }
  | .activeTab :: rest =>
    let r := runNodes data rest
    { r with output := data.ActiveTab :: r.output }
  | .fail msg :: _ => { output := [], err := some msg }

/-- The engine of the tree model: an undefined name is an error before any output. -/
def treeEngine : Engine Template :=
  { New := fun _ => { defs := [] }
    ExecuteTemplate := fun t name data =>
      match t.defs.find? (fun kv => kv.1 = name) with
      | none => { output := [], err := some ("html/template: " ++ name ++ " is undefined") }
      | some kv => runNodes data kv.2 }

/-- The layout written by `setupTestTemplates` in `pages_test.go`. -/
def testBase : HtmlFile :=
  { root := "templates", sub := "layouts", name := "base.html"
    body := some [.text "<head><title>", .title, .text "</title></head><body>", .activeTab,
      .text "</body>"]
    defines := [] }

/-- The same file after an edit that no longer parses. -/
def brokenBase : HtmlFile := { testBase with body := none }

/-- The handler `main` works with once `testBase` has been loaded. -/
def testHandler : PageHandler Template :=
  { templates := some { defs := [("base.html", [.text "<head><title>", .title,
      .text "</title></head><body>", .activeTab, .text "</body>"])] }
    devMode := true, tmplDir := "templates" }

/-- The response a template set `t` produces for one render: the HTML content
type, the chunks of the execution, and the error answer if execution failed. -/
def respondWith {τ σ : Type} (E : Engine τ) (W : ResponseWriter σ) (t : τ) (w : σ)
    (name : String) (data : PageData) : σ × List LogRecord :=
  let r := E.ExecuteTemplate t name data
  let w2 := r.output.foldl W.Write (W.HeaderSet w "Content-Type" "text/html; charset=utf-8")
  match r.err with
  | none => (w2, [])
  | some err =>
    (httpError W w2 "Render error" StatusInternalServerError,
      [{ level := "ERROR", msg := "failed to render template",
         attrs := [("name", .str name), (slogKeyError, .str err)] }])

/-- The three rendered routes registered by `main`. -/
inductive Page where
  | tracking
  | receiver
  | simulation
deriving DecidableEq, Repr

/-- The handler method behind a rendered route. -/
def Page.serve {τ σ : Type} (p : Page) (E : Engine τ) (W : ResponseWriter σ) (d : Disk τ)
    (h : PageHandler τ) (w : σ) (r : Request) : Option (PageHandler τ × σ × List LogRecord) :=
  match p with
  | .tracking => Tracking E W d h w r
  | .receiver => Receiver E W d h w r
  | .simulation => Simulation E W d h w r

/-- The page data each route passes to `render`. -/
def Page.data : Page → PageData
  | .tracking => { Title := "Отслеживание - SatWatch", ActiveTab := "tracking" }
  | .receiver => { Title := "Приёмник - SatWatch", ActiveTab := "receiver" }
  | .simulation => { Title := "Имитация - SatWatch", ActiveTab := "simulation" }

/-- The request `GET /tracking`. -/
def trackingRequest : Request :=
  { Method := "GET", Path := [47, 116, 114, 97, 99, 107, 105, 110, 103] }

/-! ## `cmd/server/main.go`: the logging decorator -/

/-- `responseWriter` wraps an `http.ResponseWriter` to capture the status code. -/
structure responseWriter (σ : Type) where
  ResponseWriter : σ
  status : Int

/-- `(*responseWriter).WriteHeader`: records the code, then forwards the call. -/
def responseWriter.WriteHeader {σ : Type} (W : SatWatch.ResponseWriter σ) (rw : responseWriter σ)
    (code : Int) : responseWriter σ :=
  let rw1 := { rw with status := code }
  { rw1 with ResponseWriter := W.WriteHeader rw1.ResponseWriter code }

/-- `Write`, promoted from the embedded `http.ResponseWriter`. -/
def responseWriter.Write {σ : Type} (W : SatWatch.ResponseWriter σ) (rw : responseWriter σ)
    (chunk : String) : responseWriter σ :=
  { rw with ResponseWriter := W.Write rw.ResponseWriter chunk }

/-- `Header().Set`, promoted from the embedded `http.ResponseWriter`. -/
def responseWriter.HeaderSet {σ : Type} (W : SatWatch.ResponseWriter σ) (rw : responseWriter σ)
    (k v : String) : responseWriter σ :=
  { rw with ResponseWriter := W.HeaderSet rw.ResponseWriter k v }

/-- The wrapper as an implementation of the `http.ResponseWriter` interface. -/
def wrapWriter {σ : Type} (W : ResponseWriter σ) : ResponseWriter (responseWriter σ) :=
  { HeaderSet := responseWriter.HeaderSet W
    Write := responseWriter.Write W
    WriteHeader := responseWriter.WriteHeader W }

/-- An `http.Handler` with private state `η`: serving a request updates the state
and makes a finite sequence of calls on the writer it is given. -/
structure Handler (η : Type) where
  ServeHTTP : η → Request → η × List Call

/-- The bytes of the literal `/static/`. -/
def staticLit : GoString := [47, 115, 116, 97, 116, 105, 99, 47]

/-- The slice expression `s[:n]`; `none` is the out-of-range panic. -/
def sliceTo (s : GoString) (n : Nat) : Option GoString :=
  if n ≤ s.length then some (s.take n) else none

/-- The condition `len(path) > 7 && path[:8] == "/static/"`, with the right
operand evaluated only when the left one holds. -/
def isStaticPath (path : GoString) : Option Bool :=
  if path.length > 7 then (sliceTo path 8).map (fun head => decide (head = staticLit))
  else some false

/-- The record written by `slog.Info("request", ...)`. -/
def requestRecord (r : Request) (status : Int) (elapsed : Nat) : LogRecord :=
  { level := "INFO", msg := "request"
    attrs := [("method", .str r.Method), ("path", .bytes r.Path), ("status", .int status),
      ("duration", .dur elapsed)] }

/-- The handler returned by `loggingMiddleware(next)`, serving one request:
the state of `next` afterwards, the underlying writer afterwards and the records
logged.  `elapsed` is the value of `time.Since(start)`. -/
def loggingMiddleware {η σ : Type} (W : ResponseWriter σ) (next : Handler η) (elapsed : Nat)
    (s : η) (w : σ) (r : Request) : Option (η × σ × List LogRecord) :=
  let wrapped : responseWriter σ := { ResponseWriter := w, status := StatusOK }
  let served := next.ServeHTTP s r
  let wrapped1 := performAll (wrapWriter W) wrapped served.2
  match isStaticPath r.Path with
  | none => none
  | some true => some (served.1, wrapped1.ResponseWriter, [])
  | some false =>
    some (served.1, wrapped1.ResponseWriter, [requestRecord r wrapped1.status elapsed])

/-- The code of the most recent `WriteHeader` call of a sequence, if there is one. -/
def lastWriteHeader : List Call → Option Int
  | [] => none
  | c :: rest =>
    match lastWriteHeader rest with
    | some code => some code
    | none =>
      match c with
      | .writeHeader code => some code
      | _ => none

/-- The status fixed by the first call that commits the status line, for a writer
that treats the codes selected by `interim` as informational: the first
`WriteHeader` with a code that is not informational, or a body write (which
implies 200).  An informational `WriteHeader` leaves the status line open. -/
def firstCommit (interim : Int → Bool) : List Call → Option Int
  | [] => none
  | .writeHeader code :: rest => if interim code then firstCommit interim rest else some code
  | .write _ :: _ => some 200
  | .headerSet _ _ :: rest => firstCommit interim rest

/-- The codes the HTTP/1 server of `net/http` treats as informational in
`WriteHeader`: 1xx other than 101 (Switching Protocols). -/
def informational (code : Int) : Bool :=
  decide (100 ≤ code ∧ code ≤ 199 ∧ code ≠ 101)

/-- The status part of the response writer of a server: whether the final status
line is fixed, which one, and the informational status lines sent before it. -/
structure StatusLine where
  wroteHeader : Bool
  status : Int
  interimSent : List Int
deriving DecidableEq, Repr

/-- The writer the server hands to a handler for a new request. -/
def StatusLine.fresh : StatusLine :=
  { wroteHeader := false, status := 0, interimSent := [] }

/-- The status logic of the response writer of the `net/http` server
(`(*response).WriteHeader` and `write`), for the codes `interim` it treats as
informational: once the final status line is fixed every `WriteHeader` is
ignored; before that an informational code is sent on its own and fixes
nothing, any other code becomes the status; a body write without a status line
fixes 200.  (The handler is taken to pass codes within 100..999; outside that
range `WriteHeader` panics.) -/
def statusWriter (interim : Int → Bool) : ResponseWriter StatusLine :=
  { HeaderSet := fun w _ _ => w
    Write := fun w _ =>
      if w.wroteHeader then w else { w with wroteHeader := true, status := 200 }
    WriteHeader := fun w code =>
      if w.wroteHeader then w
      else if interim code then { w with interimSent := w.interimSent ++ [code] }
      else { w with wroteHeader := true, status := code } }

/-- The final status the client receives: the fixed one, or the 200 the server
writes when the handler returns without having fixed one. -/
def StatusLine.sent (w : StatusLine) : Int :=
  if w.wroteHeader then w.status else 200

/-- A handler that only announces early hints: a single `WriteHeader(103)`. -/
def hintsHandler : Handler Unit :=
  { ServeHTTP := fun s _ => (s, [.writeHeader 103]) }

/-- The handler of `TestResponseWriter_MultipleWriteHeader`: `WriteHeader(201)`
followed by `WriteHeader(400)`. -/
def twiceHandler : Handler Unit :=
  { ServeHTTP := fun s _ => (s, [.writeHeader 201, .writeHeader 400]) }

/-- A handler that counts how often it was called and answers like the test
handler of `TestLoggingMiddleware`. -/
def countingHandler : Handler Nat :=
  { ServeHTTP := fun n _ => (n + 1, [.writeHeader 200, .write "test response"]) }

/-- The request `GET /`. -/
def rootRequest : Request := { Method := "GET", Path := [47] }

/-- The request `GET /static/css/main.css`. -/
def staticRequest : Request :=
  { Method := "GET"
    Path := [47, 115, 116, 97, 116, 105, 99, 47, 99, 115, 115, 47, 109, 97, 105, 110, 46, 99,
      115, 115] }

/-! ## `internal/config/config.go` -/

/-- The process environment: `none` is an unset variable. -/
abbrev Environ := String → Option String

/-- `os.Getenv`: the value of the variable, empty if it is unset. -/
def Getenv (env : Environ) (key : String) : String :=
  (env key).getD ""

def defaultObserverLat : Float := 47.315813

def defaultObserverLon : Float := 39.788243

def defaultObserverAlt : Float := 70.0

def envPort : String := "PORT"

def envObserverLat : String := "OBSERVER_LAT"

def envObserverLon : String := "OBSERVER_LON"

def envObserverAlt : String := "OBSERVER_ALT"

/-- `Config` holds the configuration of the application. -/
structure Config where
  Port : String
  ObserverLat : Float
  ObserverLon : Float
  ObserverAlt : Float

/-- `getEnv(key, defaultVal)`. -/
def getEnv (env : Environ) (key defaultVal : String) : String :=
  let val := Getenv env key
  if val ≠ "" then val else defaultVal

/-- `getEnvFloat(key, defaultVal)`; `parseFloat s` stands for
`strconv.ParseFloat(s, 64)` and returns the value together with the error. -/
def getEnvFloat (parseFloat : String → Float × Option Error) (env : Environ) (key : String)
    (defaultVal : Float) : Float :=
  let val := Getenv env key
  if val ≠ "" then
    match parseFloat val with
    | (f, none) => f
    | (_, some _) => defaultVal
  else defaultVal

/-- `Load()`. -/
def Load (parseFloat : String → Float × Option Error) (env : Environ) : Config :=
  { Port := getEnv env envPort "8080"
    ObserverLat := getEnvFloat parseFloat env envObserverLat defaultObserverLat
    ObserverLon := getEnvFloat parseFloat env envObserverLon defaultObserverLon
    ObserverAlt := getEnvFloat parseFloat env envObserverAlt defaultObserverAlt }

/-- `(*Config).Addr`. -/
def Config.Addr (c : Config) : String :=
  ":" ++ c.Port

/-- The documented value of a string setting: the variable if it is set and
non-empty, otherwise the default. -/
def specString (env : Environ) (key dflt : String) : String :=
  match env key with
  | some v => if v = "" then dflt else v
  | none => dflt

/-- The documented value of a numeric setting: the parsed variable if it is set,
non-empty and parses, otherwise the default. -/
def specFloat (parseFloat : String → Float × Option Error) (env : Environ) (key : String)
    (dflt : Float) : Float :=
  match env key with
  | some v => if v ≠ "" ∧ (parseFloat v).2 = none then (parseFloat v).1 else dflt
  | none => dflt

/-- A parser that knows the three literals of `TestLoad_CustomValues` and rejects
everything else. -/
def testParseFloat (s : String) : Float × Option Error :=
  if s = "51.5074" then (51.5074, none)
  else if s = "-0.1278" then (-0.1278, none)
  else if s = "11.0" then (11.0, none)
  else (0, some "strconv.ParseFloat: invalid syntax")

/-- The environment of `TestLoad_InvalidFloatValues` with a custom altitude and an
empty port. -/
def testEnviron : Environ := fun key =>
  if key = "OBSERVER_LAT" then some "invalid"
  else if key = "OBSERVER_LON" then some "not-a-number"
  else if key = "OBSERVER_ALT" then some "11.0"
  else if key = "PORT" then some ""
  else none

/-! ## `cmd/server/main.go`: the process -/

/-- `http.ErrServerClosed`. -/
def ErrServerClosed : Error := "http: Server closed"

/-- What the surroundings of the process do during one run of `main`. -/
structure World (τ : Type) where
  /-- The process environment. -/
  environ : Environ
  /-- The behaviour of `strconv.ParseFloat`. -/
  parseFloat : String → Float × Option Error
  /-- The template directory at startup. -/
  disk : Disk τ
  /-- The error `ListenAndServe` returns while `main` waits, if it returns. -/
  serveErr : Option Error
  /-- The termination signal delivered while `main` waits, if one is. -/
  signal : Option String
  /-- The choice of `select` when both channels are ready. -/
  signalFirst : Bool
  /-- The result of `server.Shutdown` under the 30 second deadline. -/
  shutdownErr : Option Error

/-- The case taken by the `select` statement of `main`. -/
inductive Selected where
  | serverErr (err : Error)
  | quit (sig : String)
deriving DecidableEq, Repr

/-- The value the serving goroutine sends on `serverErr`: the error of
`ListenAndServe` unless it is `ErrServerClosed`. -/
def World.sentErr {τ : Type} (w : World τ) : Option Error :=
  match w.serveErr with
  | some err => if err ≠ ErrServerClosed then some err else none
  | none => none

/-- The `select` over `serverErr` and `quit`; `none` when neither channel ever
becomes ready (the statement blocks forever). -/
def World.select {τ : Type} (w : World τ) : Option Selected :=
  match w.sentErr, w.signal with
  | some err, none => some (.serverErr err)
  | none, some sig => some (.quit sig)
  | some err, some sig => if w.signalFirst then some (.quit sig) else some (.serverErr err)
  | none, none => none

/-- The observable steps of `main`. -/
inductive MainEvent where
  | log (level msg : String)
  | listenAndServe (addr : String)
  | shutdown
deriving DecidableEq, Repr

/-- `main`: the exit code of the process and its observable steps, `none` when it
never terminates.  The registration of the routes is left out; serving a request
is `loggingMiddleware` around the handlers above. -/
def main {τ : Type} (E : Engine τ) (w : World τ) : Option (Int × List MainEvent) :=
  let cfg := Load w.parseFloat w.environ
  let t0 := [MainEvent.log "INFO" "configuration loaded"]
  match NewPageHandler E w.disk "templates" true with
  | .error _ => some (1, t0 ++ [.log "ERROR" "failed to initialize page handler"])
  | .ok _ =>
    let t1 := t0 ++ [.log "INFO" "starting server", .listenAndServe cfg.Addr]
    match w.select with
    | none => none
    | some (.serverErr _) => some (1, t1 ++ [.log "ERROR" "server error"])
    | some (.quit _) =>
      let t2 := t1 ++ [.log "INFO" "received shutdown signal",
        .log "INFO" "shutting down server...", .shutdown]
      match w.shutdownErr with
      | some _ => some (1, t2 ++ [.log "ERROR" "server shutdown error"])
      | none => some (0, t2 ++ [.log "INFO" "server stopped gracefully"])

/-- The page of `TestNewPageHandler`, in a directory without any layout. -/
def pageOnly : HtmlFile :=
  { root := "templates", sub := "pages", name := "test.html"
    body := some []
    defines := [("content", [.text "<h1>Test Page</h1>"])] }

/-- A run of `main` over the given files that is stopped by `SIGTERM` and shuts
down in time. -/
def calmWorld (files : List HtmlFile) : World Template :=
  { environ := fun _ => none, parseFloat := testParseFloat, disk := treeDisk files
    serveErr := none, signal := some "terminated", signalFirst := true, shutdownErr := none }

/-- A run of `main` over the test layout in which the port is taken:
`ListenAndServe` returns at once with a bind error, and no signal is sent. -/
def bindFailWorld : World Template :=
  { environ := fun _ => none, parseFloat := testParseFloat, disk := treeDisk [testBase]
    serveErr := some "listen tcp :8080: bind: address already in use"
    signal := none, signalFirst := true, shutdownErr := none }

/-! ## Sequences of operations on one handler -/

/-- One operation on a handler after construction: a `render` call (on the
disk it finds, with its writer, template name and data) or a reload
(`loadTemplates` on the disk it finds). -/
inductive HandlerOp (τ σ : Type) where
  | render (d : Disk τ) (w : σ) (name : String) (data : PageData)
  | reload (d : Disk τ)

/-- Performs one operation; `none` is the panic of `render`. -/
def HandlerOp.apply {τ σ : Type} (E : Engine τ) (W : ResponseWriter σ) (h : PageHandler τ) :
    HandlerOp τ σ → Option (PageHandler τ)
  | .render d w name data => (SatWatch.render E W d h w name data).map (fun res => res.1)
  | .reload d => some (loadTemplates E d h).1

/-- Performs a finite sequence of operations, first to last. -/
def applyOps {τ σ : Type} (E : Engine τ) (W : ResponseWriter σ) (h : PageHandler τ) :
    List (HandlerOp τ σ) → Option (PageHandler τ)
  | [] => some h
  | op :: rest =>
    match op.apply E W h with
    | none => none
    | some h1 => applyOps E W h1 rest

/-- A page that no longer parses, next to the layout. -/
def brokenPage : HtmlFile :=
  { root := "templates", sub := "pages", name := "bad.html", body := none, defines := [] }

/-- A tree on which the recursive glob fails (a broken draft) while `layouts`,
`pages` and `partials` parse. -/
def splitTree : List HtmlFile :=
  [ testBase,
    { root := "templates", sub := "pages", name := "index.html"
      body := some [.text "index"], defines := [] },
    { root := "templates", sub := "partials", name := "nav.html"
      body := some [.text "nav"], defines := [] },
    { root := "templates", sub := "drafts", name := "wip.html", body := none, defines := [] } ]

/-! ## Concurrent calls on one handler

Goroutines that call `render` or `loadTemplates` on the same `*PageHandler` are
modelled as an interleaving of atomic steps, one step per action of the source
on the shared handler: taking or releasing the mutex, storing the reference,
copying the reference.  Parsing and executing act on local variables only (the
set being built, the copied reference, the writer of the request), so each is one
step.  The mutex remembers which goroutines hold it.  `Lock` is enabled when
nobody holds the mutex, `RLock` when no writer holds it; a step that is not
enabled leaves the system as it is. -/

/-- Lines 43 to 69 of `loadTemplates`: the parse, before the mutex is touched. -/
def parseTemplates {τ : Type} (E : Engine τ) (d : Disk τ) (tmplDir : String) : Except Error τ :=
  let pattern := filepathJoin [tmplDir, "**", templateGlob]
  match d.ParseGlob pattern with
  | .ok tmpl => .ok tmpl
  | .error _ =>
    let tmpl0 := E.New ""
    let layoutPattern := filepathJoin [tmplDir, "layouts", templateGlob]
    match d.ParseGlobInto tmpl0 layoutPattern with
    | .error err => .error err
    | .ok tmpl1 =>
      let pagesPattern := filepathJoin [tmplDir, "pages", templateGlob]
      match d.ParseGlobInto tmpl1 pagesPattern with
      | .error err => .error err
      | .ok tmpl2 =>
        let fragmentsPattern := filepathJoin [tmplDir, "partials", templateGlob]
        match d.ParseGlobInto tmpl2 fragmentsPattern with
        | .error err => .error err
        | .ok tmpl3 => .ok tmpl3

/-- The state of the `sync.RWMutex`: the goroutine holding it for writing and
the goroutines holding it for reading. -/
structure RWMutex where
  writer : Option Nat
  readers : List Nat
deriving DecidableEq, Repr

/-- The handler as goroutines share it: its fields and its mutex. -/
structure Shared (τ : Type) where
  h : PageHandler τ
  mu : RWMutex

/-- The method a goroutine runs on the handler, with its arguments. -/
inductive Routine (σ : Type) where
  | render (w : σ) (name : String) (data : PageData)
  | loadTemplates

/-- The program points of a goroutine, named after what lies behind it. -/
inductive Pc (τ σ : Type) where
  /-- At the start of the method. -/
  | entry
  /-- The parse succeeded; `h.mu.Lock()` (line 71) is next. -/
  | parsed (tmpl : τ)
  /-- The mutex is held for writing; `h.templates = tmpl` (line 72) is next. -/
  | locked (tmpl : τ)
  /-- The reference is stored; `h.mu.Unlock()` (line 73) is next. -/
  | stored
  /-- The reload inside `render` returned an error; lines 81 to 83 are next. -/
  | loadFailed (err : Error)
  /-- No reload, or a successful one; `h.mu.RLock()` (line 87) is next. -/
  | loaded
  /-- The mutex is held for reading; `tmpl := h.templates` (line 88) is next. -/
  | rlocked
  /-- The reference is copied; `h.mu.RUnlock()` (line 89) is next. -/
  | copied (tmpl : Option τ)
  /-- The mutex is released; lines 91 and 92 (header, execution) are next. -/
  | released (tmpl : Option τ)
  /-- The call of `render` returned: the set it executed, if any, and its writer. -/
  | rendered (used : Option τ) (w : σ)
  /-- The call of `loadTemplates` returned. -/
  | returned (err : Option Error)
  /-- The goroutine dereferenced a nil template set. -/
  | panicked

/-- A goroutine: its method, the disk its parse finds, and where it stands. -/
structure Goroutine (τ σ : Type) where
  routine : Routine σ
  disk : Disk τ
  pc : Pc τ σ

/-- The next step of goroutine `i`; `none` when it is blocked or has finished. -/
def Goroutine.step {τ σ : Type} (E : Engine τ) (W : ResponseWriter σ) (i : Nat)
    (sh : Shared τ) (g : Goroutine τ σ) : Option (Shared τ × Goroutine τ σ) :=
  match g.pc with
  | .entry =>
    match g.routine with
    | .render _ _ _ =>
      if sh.h.devMode then
        match parseTemplates E g.disk sh.h.tmplDir with
        | .ok tmpl => some (sh, { g with pc := .parsed tmpl })
        | .error err => some (sh, { g with pc := .loadFailed err })
      else some (sh, { g with pc := .loaded })
    | .loadTemplates =>
      match parseTemplates E g.disk sh.h.tmplDir with
      | .ok tmpl => some (sh, { g with pc := .parsed tmpl })
      | .error err => some (sh, { g with pc := .returned (some err) })
  | .parsed tmpl =>
    if sh.mu.writer = none ∧ sh.mu.readers = [] then
      some ({ sh with mu := { writer := some i, readers := sh.mu.readers } },
        { g with pc := .locked tmpl })
    else none
  | .locked tmpl =>
    some ({ sh with h := { sh.h with templates := some tmpl } }, { g with pc := .stored })
  | .stored =>
    match g.routine with
    | .render _ _ _ =>
      some ({ sh with mu := { writer := none, readers := sh.mu.readers } },
        { g with pc := .loaded })
    | .loadTemplates =>
      some ({ sh with mu := { writer := none, readers := sh.mu.readers } },
        { g with pc := .returned none })
  | .loadFailed _ =>
    match g.routine with
    | .render w _ _ =>
      let w1 := httpError W w "Template error" StatusInternalServerError
      some (sh, { g with pc := .rendered none w1 })
    | .loadTemplates => none
  | .loaded =>
    if sh.mu.writer = none then
      some ({ sh with mu := { writer := sh.mu.writer, readers := i :: sh.mu.readers } },
        { g with pc := .rlocked })
    else none
  | .rlocked => some (sh, { g with pc := .copied sh.h.templates })
  | .copied tmpl =>
    some ({ sh with mu := { writer := sh.mu.writer, readers := sh.mu.readers.erase i } },
      { g with pc := .released tmpl })
  | .released tmpl =>
    match g.routine with
    | .render w name data =>
      match tmpl with
      | some t => some (sh, { g with pc := .rendered (some t) (respondWith E W t w name data).1 })
      | none => some (sh, { g with pc := .panicked })
    | .loadTemplates => none
  | .rendered _ _ => none
  | .returned _ => none
  | .panicked => none

/-- The handler together with the goroutines working on it. -/
structure System (τ σ : Type) where
  sh : Shared τ
  gs : List (Goroutine τ σ)

/-- Lets goroutine `i` take its next step, if it has one. -/
def System.step {τ σ : Type} (E : Engine τ) (W : ResponseWriter σ) (s : System τ σ)
    (i : Nat) : System τ σ :=
  match s.gs[i]? with
  | none => s
  | some g =>
    match g.step E W i s.sh with
    | none => s
    | some (sh1, g1) => { sh := sh1, gs := s.gs.set i g1 }

/-- Runs an interleaving: the goroutines step in the order of the schedule. -/
def System.run {τ σ : Type} (E : Engine τ) (W : ResponseWriter σ) (s : System τ σ)
    (sched : List Nat) : System τ σ :=
  sched.foldl (System.step E W) s

/-- The system at the moment the goroutines are started on handler `h`. -/
def System.start {τ σ : Type} (h : PageHandler τ) (calls : List (Routine σ × Disk τ)) :
    System τ σ :=
  { sh := { h := h, mu := { writer := none, readers := [] } }
    gs := calls.map fun c => { routine := c.1, disk := c.2, pc := .entry } }

/-- Whether a call reloads the templates: `loadTemplates` always does, `render`
does in development mode. -/
def Routine.reloads {σ : Type} (dev : Bool) : Routine σ → Bool
  | .loadTemplates => true
  | .render _ _ _ => dev

/-- The goroutine stands between `Lock` and `Unlock`. -/
def Pc.holdsWrite {τ σ : Type} : Pc τ σ → Bool
  | .locked _ => true
  | .stored => true
  | _ => false

/-- The goroutine stands between `RLock` and `RUnlock`. -/
def Pc.holdsRead {τ σ : Type} : Pc τ σ → Bool
  | .rlocked => true
  | .copied _ => true
  | _ => false

/-- Goroutine `i` of the list stands between `Lock` and `Unlock`. -/
def InWrite {τ σ : Type} (gs : List (Goroutine τ σ)) (i : Nat) : Prop :=
  ∃ g, gs[i]? = some g ∧ g.pc.holdsWrite = true

/-- Goroutine `i` of the list stands between `RLock` and `RUnlock`. -/
def InRead {τ σ : Type} (gs : List (Goroutine τ σ)) (i : Nat) : Prop :=
  ∃ g, gs[i]? = some g ∧ g.pc.holdsRead = true

/-- What the local variables of a goroutine may hold, given the sets `Good` that
can be in circulation: a set it parsed or copied is one of them, a finished
render has produced exactly the response of the set it used, and nobody panicked. -/
def PcGood {τ σ : Type} (E : Engine τ) (W : ResponseWriter σ) (Good : τ → Prop)
    (g : Goroutine τ σ) : Prop :=
  match g.pc with
  | .parsed t => Good t
  | .locked t => Good t
  | .copied o => ∃ u, o = some u ∧ Good u
  | .released o => ∃ u, o = some u ∧ Good u
  | .rendered (some u) w =>
    Good u ∧ ∃ w0 name data, g.routine = .render w0 name data ∧
      w = (respondWith E W u w0 name data).1
  | .rendered none w =>
    ∃ w0 name data, g.routine = .render w0 name data ∧
      w = httpError W w0 "Template error" 500
  | .panicked => False
  | _ => True

/-- The invariant of the interleaving model. -/
structure Coherent {τ σ : Type} (E : Engine τ) (W : ResponseWriter σ) (dir : String)
    (dev : Bool) (Good : τ → Prop) (routines : List (Routine σ)) (s : System τ σ) : Prop where
  dev_eq : s.sh.h.devMode = dev
  dir_eq : s.sh.h.tmplDir = dir
  stored : ∃ u, s.sh.h.templates = some u ∧ Good u
  routines_eq : s.gs.map (fun g => g.routine) = routines
  parses : ∀ (i : Nat) (g : Goroutine τ σ), s.gs[i]? = some g →
    g.routine.reloads dev = true → ∀ u, parseTemplates E g.disk dir = .ok u → Good u
  locals : ∀ (i : Nat) (g : Goroutine τ σ), s.gs[i]? = some g → PcGood E W Good g
  writer_iff : ∀ i : Nat, s.sh.mu.writer = some i ↔ InWrite s.gs i
  reader_iff : ∀ i : Nat, i ∈ s.sh.mu.readers ↔ InRead s.gs i
  nodup : s.sh.mu.readers.Nodup
  excl : s.sh.mu.writer ≠ none → s.sh.mu.readers = []

/-- The set used by each goroutine that has finished a render. -/
def System.used {τ σ : Type} (s : System τ σ) : List (Option τ) :=
  s.gs.map fun g =>
    match g.pc with
    | .rendered u _ => u
    | _ => none

/-- The layout after an edit of its text. -/
def editedBase : HtmlFile :=
  { testBase with body := some [.text "<body>v2 ", .activeTab, .text "</body>"] }

/-- Two production renders and one reload of the edited layout. -/
def raceCalls : List (Routine ResponseRecorder × Disk Template) :=
  [(.render NewRecorder "base.html" Page.tracking.data, treeDisk [editedBase]),
   (.loadTemplates, treeDisk [editedBase]),
   (.render NewRecorder "base.html" Page.receiver.data, treeDisk [editedBase])]

/-- The calls of `raceCalls` started on the handler that holds the test layout. -/
def raceStart : System Template ResponseRecorder :=
  System.start { testHandler with devMode := false } raceCalls

/-- The sets that can be in circulation when the given calls run on a handler
that holds `T0`: `T0` itself and every set built by one of the calls that reload. -/
def Circulating {τ σ : Type} (E : Engine τ) (h : PageHandler τ) (T0 : τ)
    (calls : List (Routine σ × Disk τ)) (u : τ) : Prop :=
  u = T0 ∨ ∃ c ∈ calls, c.1.reloads h.devMode = true ∧ parseTemplates E c.2 h.tmplDir = .ok u

/-! ## Theorems -/

/-- The source function and the specified parse agree: `loadTemplates` stores the
result of `specLoad` when there is one and otherwise returns its error untouched. -/
theorem loadTemplates_eq {τ : Type} (E : Engine τ) (d : Disk τ) (h : PageHandler τ) :
    loadTemplates E d h =
      match specLoad E d h.tmplDir with
      | .ok t => ({ h with templates := some t }, none)
      | .error e => (h, some e) := by
  simp only [loadTemplates, specLoad, templateGlob]
  cases d.ParseGlob (filepathJoin [h.tmplDir, "**", "*.html"]) with
  | ok t => rfl
  | error e0 =>
    cases d.ParseGlobInto (E.New "") (filepathJoin [h.tmplDir, "layouts", "*.html"]) with
    | error e1 => rfl
    | ok t1 =>
      simp only [Except.bind]
      cases d.ParseGlobInto t1 (filepathJoin [h.tmplDir, "pages", "*.html"]) with
      | error e2 => rfl
      | ok t2 =>
        simp only []
        cases d.ParseGlobInto t2 (filepathJoin [h.tmplDir, "partials", "*.html"]) with
        | error e3 => rfl
        | ok t3 => rfl

/-- C1: a reload whose parsing fails returns the error and leaves the handler
(hence its stored template set) as it was; a reload whose parsing succeeds
returns no error and stores exactly the newly built set. -/
theorem loadTemplates_swaps_only_on_success {τ : Type} (E : Engine τ) (d : Disk τ)
    (h : PageHandler τ) :
    (∀ e, specLoad E d h.tmplDir = .error e →
      loadTemplates E d h = (h, some e) ∧ (loadTemplates E d h).1.templates = h.templates) ∧
    (∀ t, specLoad E d h.tmplDir = .ok t →
      loadTemplates E d h = ({ h with templates := some t }, none)) := by
  constructor
  · intro e he
    rw [loadTemplates_eq, he]
    exact ⟨rfl, rfl⟩
  · intro t ht
    rw [loadTemplates_eq, ht]

/-- C1 at the test layout: a broken edit is refused and nothing changes, the
original file is loaded and stored. -/
theorem loadTemplates_swaps_only_on_success_witness :
    (loadTemplates treeEngine (treeDisk [brokenBase]) testHandler =
        (testHandler, some "template: base.html: parse error") ∧
      (loadTemplates treeEngine (treeDisk [brokenBase]) testHandler).1.templates =
        testHandler.templates) ∧
    loadTemplates treeEngine (treeDisk [testBase]) testHandler = (testHandler, none) :=
  ⟨(loadTemplates_swaps_only_on_success treeEngine (treeDisk [brokenBase]) testHandler).1
      "template: base.html: parse error" rfl,
   (loadTemplates_swaps_only_on_success treeEngine (treeDisk [testBase]) testHandler).2
      _ rfl⟩

/-! ### The recorder under a stream of body writes -/

/-- Once the status line is out, body writes only extend the body. -/
theorem recorder_writes_after_header (chunks : List String) (rw : ResponseRecorder)
    (hw : rw.wroteHeader = true) :
    chunks.foldl ResponseRecorder.Write rw = { rw with Body := rw.Body ++ chunks } := by
  induction chunks generalizing rw with
  | nil => simp
  | cons c cs ih =>
    have h1 : rw.Write c = { rw with Body := rw.Body ++ [c] } := by
      simp [ResponseRecorder.Write, ResponseRecorder.WriteHeader, hw]
    rw [List.foldl_cons, h1, ih { rw with Body := rw.Body ++ [c] } hw]
    simp

/-- On a recorder that has sent nothing and holds the default code 200, a stream
of body writes is answered with status 200, the header map as it stood before the
first write, and the chunks as body. -/
theorem recorder_writes_fresh (chunks : List String) (rw : ResponseRecorder)
    (hw : rw.wroteHeader = false) (hs : rw.snapHeader = none) (hc : rw.Code = 200) :
    (chunks.foldl ResponseRecorder.Write rw).StatusCode = 200 ∧
    (chunks.foldl ResponseRecorder.Write rw).ResultHeader = rw.HeaderMap ∧
    (chunks.foldl ResponseRecorder.Write rw).Body = rw.Body ++ chunks := by
  cases chunks with
  | nil =>
    simp [ResponseRecorder.StatusCode, ResponseRecorder.ResultHeader, hc, hs]
  | cons c cs =>
    have h1 : rw.Write c =
        { Code := 200, HeaderMap := rw.HeaderMap, Body := rw.Body ++ [c], wroteHeader := true,
          snapHeader := some rw.HeaderMap } := by
      simp [ResponseRecorder.Write, ResponseRecorder.WriteHeader, hw]
    rw [List.foldl_cons, h1, recorder_writes_after_header cs _ rfl]
    simp [ResponseRecorder.StatusCode, ResponseRecorder.ResultHeader]

/-- The answer of `http.Error` on a recorder that has sent nothing carries the
given status. -/
theorem recorder_httpError_status (rw : ResponseRecorder) (msg : String) (code : Int)
    (hw : rw.wroteHeader = false) :
    (httpError recorder rw msg code).StatusCode = code := by
  simp [httpError, recorder, ResponseRecorder.StatusCode, ResponseRecorder.Write,
    ResponseRecorder.WriteHeader, ResponseRecorder.HeaderSet, hw]

/-! ### `render` case by case -/

/-- Every route is `render` of the base layout with the data of the route. -/
theorem Page.serve_eq {τ σ : Type} (p : Page) (E : Engine τ) (W : ResponseWriter σ)
    (d : Disk τ) (h : PageHandler τ) (w : σ) (r : Request) :
    p.serve E W d h w r = render E W d h w "base.html" p.data := by
  cases p <;> rfl

/-- Outside development mode `render` answers from the stored set. -/
theorem render_stored {τ σ : Type} (E : Engine τ) (W : ResponseWriter σ) (d : Disk τ)
    (h : PageHandler τ) (w : σ) (name : String) (data : PageData) (t : τ)
    (hdev : h.devMode = false) (ht : h.templates = some t) :
    render E W d h w name data =
      some (h, (respondWith E W t w name data).1, (respondWith E W t w name data).2) := by
  cases hE : (E.ExecuteTemplate t name data).err <;>
    simp [render, respondWith, hdev, ht, hE]

/-- In development mode a failed reload is answered with the error page. -/
theorem render_reload_failed {τ σ : Type} (E : Engine τ) (W : ResponseWriter σ) (d : Disk τ)
    (h : PageHandler τ) (w : σ) (name : String) (data : PageData) (e : Error)
    (hdev : h.devMode = true) (hl : specLoad E d h.tmplDir = .error e) :
    render E W d h w name data =
      some (h, httpError W w "Template error" 500,
        [{ level := "ERROR", msg := "failed to reload templates",
           attrs := [("error", .str e)] }]) := by
  simp only [render, hdev, loadTemplates_eq, hl]
  rfl

/-- In development mode a successful reload is answered from the new set. -/
theorem render_reload_ok {τ σ : Type} (E : Engine τ) (W : ResponseWriter σ) (d : Disk τ)
    (h : PageHandler τ) (w : σ) (name : String) (data : PageData) (t : τ)
    (hdev : h.devMode = true) (hl : specLoad E d h.tmplDir = .ok t) :
    render E W d h w name data =
      some ({ h with templates := some t }, (respondWith E W t w name data).1,
        (respondWith E W t w name data).2) := by
  cases hE : (E.ExecuteTemplate t name data).err <;>
    simp [render, respondWith, hdev, loadTemplates_eq, hl, hE]

/-- C2 (as stated, refuted): `main` builds the handler in development mode.  After
the layout is broken, the reload fails, and the render that follows immediately
does not return the previous content: it reloads again and answers 500 with
the text `Template error`, while the set loaded before would have produced
the page with status 200. -/
theorem render_after_failed_reload_counterexample :
    NewPageHandler treeEngine (treeDisk [testBase]) "templates" true = .ok testHandler ∧
    loadTemplates treeEngine (treeDisk [brokenBase]) testHandler =
      (testHandler, some "template: base.html: parse error") ∧
    (Tracking treeEngine recorder (treeDisk [brokenBase])
        (loadTemplates treeEngine (treeDisk [brokenBase]) testHandler).1
        NewRecorder trackingRequest).map (fun res => (res.2.1.StatusCode, res.2.1.Body)) =
      some (500, ["Template error\n"]) ∧
    (Tracking treeEngine recorder (treeDisk [testBase]) testHandler
        NewRecorder trackingRequest).map (fun res => (res.2.1.StatusCode, res.2.1.Body)) =
      some (200, ["<head><title>", "Отслеживание - SatWatch", "</title></head><body>",
        "tracking", "</body>"]) := by
  refine ⟨rfl, rfl, ?_, ?_⟩ <;> decide

/-- C2 (amended): a failed reload leaves the set `T` stored.  The render that
follows returns the response produced by `T` when the handler is not in
development mode (status 200 and the output of `T` as body when `T` executes
without error); in development mode it repeats the reload and, while that
fails, answers 500 `Template error` with `T` still stored. -/
theorem render_after_failed_reload {τ σ : Type} (E : Engine τ) (W : ResponseWriter σ)
    (d d1 : Disk τ) (h : PageHandler τ) (T : τ) (e : Error) (p : Page) (r : Request)
    (hT : h.templates = some T) (hfail : specLoad E d h.tmplDir = .error e) :
    (loadTemplates E d h).1 = h ∧
    (h.devMode = false →
      (∀ w : σ, p.serve E W d1 (loadTemplates E d h).1 w r =
        some (h, (respondWith E W T w "base.html" p.data).1,
          (respondWith E W T w "base.html" p.data).2)) ∧
      ((E.ExecuteTemplate T "base.html" p.data).err = none →
        ∃ rw, p.serve E recorder d1 (loadTemplates E d h).1 NewRecorder r = some (h, rw, []) ∧
          rw.StatusCode = 200 ∧
          rw.Body = (E.ExecuteTemplate T "base.html" p.data).output)) ∧
    (h.devMode = true → ∀ e1, specLoad E d1 h.tmplDir = .error e1 →
      (∀ w : σ, p.serve E W d1 (loadTemplates E d h).1 w r =
        some (h, httpError W w "Template error" 500,
          [{ level := "ERROR", msg := "failed to reload templates",
             attrs := [("error", .str e1)] }])) ∧
      ∃ rw logs, p.serve E recorder d1 (loadTemplates E d h).1 NewRecorder r =
          some (h, rw, logs) ∧ rw.StatusCode = 500) := by
  have hsame : (loadTemplates E d h).1 = h := by rw [loadTemplates_eq, hfail]
  rw [hsame]
  refine ⟨rfl, ?_, ?_⟩
  · intro hdev
    refine ⟨fun w => ?_, fun hok => ?_⟩
    · rw [Page.serve_eq, render_stored E W d1 h w _ _ T hdev hT]
    · rw [Page.serve_eq, render_stored E recorder d1 h _ _ _ T hdev hT]
      have hw := recorder_writes_fresh (E.ExecuteTemplate T "base.html" p.data).output
        (NewRecorder.HeaderSet "Content-Type" "text/html; charset=utf-8") rfl rfl rfl
      have hr : respondWith E recorder T NewRecorder "base.html" p.data =
          ((E.ExecuteTemplate T "base.html" p.data).output.foldl ResponseRecorder.Write
            (NewRecorder.HeaderSet "Content-Type" "text/html; charset=utf-8"), []) := by
        simp only [respondWith, hok]
        rfl
      rw [hr]
      exact ⟨_, rfl, hw.1, by simpa [ResponseRecorder.HeaderSet, NewRecorder] using hw.2.2⟩
  · intro hdev e1 hl
    refine ⟨fun w => ?_, ?_⟩
    · rw [Page.serve_eq, render_reload_failed E W d1 h w _ _ e1 hdev hl]
    · rw [Page.serve_eq, render_reload_failed E recorder d1 h _ _ _ e1 hdev hl]
      exact ⟨_, _, rfl, recorder_httpError_status _ _ _ rfl⟩

/-- A handler outside development mode, holding the test layout. -/
theorem render_after_failed_reload_witness :
    (Page.tracking.serve treeEngine recorder (treeDisk [brokenBase])
        (loadTemplates treeEngine (treeDisk [brokenBase])
          { testHandler with devMode := false }).1 NewRecorder trackingRequest =
      some ({ testHandler with devMode := false },
        (respondWith treeEngine recorder
          { defs := [("base.html", [.text "<head><title>", .title,
            .text "</title></head><body>", .activeTab, .text "</body>"])] }
          NewRecorder "base.html" Page.tracking.data).1,
        (respondWith treeEngine recorder
          { defs := [("base.html", [.text "<head><title>", .title,
            .text "</title></head><body>", .activeTab, .text "</body>"])] }
          NewRecorder "base.html" Page.tracking.data).2)) ∧
    ∃ rw logs, Page.tracking.serve treeEngine recorder (treeDisk [brokenBase])
        (loadTemplates treeEngine (treeDisk [brokenBase]) testHandler).1
        NewRecorder trackingRequest = some (testHandler, rw, logs) ∧ rw.StatusCode = 500 :=
  ⟨((render_after_failed_reload treeEngine recorder (treeDisk [brokenBase])
        (treeDisk [brokenBase]) { testHandler with devMode := false } _
        "template: base.html: parse error" Page.tracking trackingRequest rfl rfl).2.1 rfl).1
      NewRecorder,
   ((render_after_failed_reload treeEngine recorder (treeDisk [brokenBase])
        (treeDisk [brokenBase]) testHandler _
        "template: base.html: parse error" Page.tracking trackingRequest rfl rfl).2.2 rfl
        "template: base.html: parse error" rfl).2⟩

/-- Replacing the execution function of the engine does not change what is parsed. -/
theorem specLoad_exec_irrelevant {τ : Type} (E : Engine τ) (d : Disk τ) (dir : String)
    (X : τ → String → PageData → ExecResult) :
    specLoad { E with ExecuteTemplate := X } d dir = specLoad E d dir := rfl

/-- C3: in development mode a failed reload makes `render` answer with the error
page (status 500 on a writer that has sent nothing), the response does not
depend on the execution of any template, and the handler with its stored set is
returned unchanged; outside development mode `render` does not consult the disk
and returns the handler unchanged. -/
theorem render_reload_guard {τ σ : Type} (E : Engine τ) (W : ResponseWriter σ) (d : Disk τ)
    (h : PageHandler τ) (w : σ) (name : String) (data : PageData) :
    (h.devMode = true → ∀ e, specLoad E d h.tmplDir = .error e →
      render E W d h w name data =
        some (h, httpError W w "Template error" 500,
          [{ level := "ERROR", msg := "failed to reload templates",
             attrs := [("error", .str e)] }]) ∧
      (∀ X, render { E with ExecuteTemplate := X } W d h w name data =
        render E W d h w name data) ∧
      (∀ rw : ResponseRecorder, rw.wroteHeader = false →
        ∃ out logs, render E recorder d h rw name data = some (h, out, logs) ∧
          out.StatusCode = 500)) ∧
    (h.devMode = false →
      (∀ d1, render E W d1 h w name data = render E W d h w name data) ∧
      (∀ res, render E W d h w name data = some res → res.1 = h)) := by
  constructor
  · intro hdev e hl
    refine ⟨render_reload_failed E W d h w name data e hdev hl, fun X => ?_, fun rw hw => ?_⟩
    · rw [render_reload_failed E W d h w name data e hdev hl,
        render_reload_failed { E with ExecuteTemplate := X } W d h w name data e hdev
          (by rw [specLoad_exec_irrelevant]; exact hl)]
    · rw [render_reload_failed E recorder d h rw name data e hdev hl]
      exact ⟨_, _, rfl, recorder_httpError_status _ _ _ hw⟩
  · intro hdev
    constructor
    · intro d1
      simp [render, hdev]
    · intro res hres
      cases ht : h.templates with
      | none => simp [render, hdev, ht] at hres
      | some t =>
        rw [render_stored E W d h w name data t hdev ht] at hres
        cases hres
        rfl

/-- C3 at the broken test layout (development mode) and at a handler outside
development mode. -/
theorem render_reload_guard_witness :
    (render treeEngine recorder (treeDisk [brokenBase]) testHandler NewRecorder "base.html"
        Page.tracking.data =
      some (testHandler, httpError recorder NewRecorder "Template error" 500,
        [{ level := "ERROR", msg := "failed to reload templates",
           attrs := [("error", .str "template: base.html: parse error")] }])) ∧
    (∀ d1, render treeEngine recorder d1 { testHandler with devMode := false } NewRecorder
        "base.html" Page.tracking.data =
      render treeEngine recorder (treeDisk [brokenBase]) { testHandler with devMode := false }
        NewRecorder "base.html" Page.tracking.data) :=
  ⟨((render_reload_guard treeEngine recorder (treeDisk [brokenBase]) testHandler NewRecorder
        "base.html" Page.tracking.data).1 rfl "template: base.html: parse error" rfl).1,
   ((render_reload_guard treeEngine recorder (treeDisk [brokenBase])
        { testHandler with devMode := false } NewRecorder
        "base.html" Page.tracking.data).2 rfl).1⟩

/-- C4: when the templates of a directory load and the base layout executes
without error for the data of the three pages, `NewPageHandler` succeeds (in
either mode) and every page route: on any writer, sets the HTML content type
first and then writes exactly the chunks of the execution; on a fresh
recorder, answers status 200 with `Content-Type` equal to
`text/html; charset=utf-8`. -/
theorem pages_respond_ok {τ : Type} (E : Engine τ) (d : Disk τ) (dir : String)
    (devMode : Bool) (t : τ) (hload : specLoad E d dir = .ok t)
    (hexec : ∀ p : Page, (E.ExecuteTemplate t "base.html" p.data).err = none) :
    ∃ h, NewPageHandler E d dir devMode = .ok h ∧ h.templates = some t ∧
      ∀ (p : Page) (r : Request),
        (∀ (σ : Type) (W : ResponseWriter σ) (w : σ),
          p.serve E W d h w r =
            some (h, (E.ExecuteTemplate t "base.html" p.data).output.foldl W.Write
              (W.HeaderSet w "Content-Type" "text/html; charset=utf-8"), [])) ∧
        ∃ rw, p.serve E recorder d h NewRecorder r = some (h, rw, []) ∧
          rw.StatusCode = 200 ∧
          headerGet rw.ResultHeader "Content-Type" = some "text/html; charset=utf-8" ∧
          rw.Body = (E.ExecuteTemplate t "base.html" p.data).output := by
  refine ⟨{ templates := some t, devMode := devMode, tmplDir := dir }, ?_, rfl, ?_⟩
  · simp [NewPageHandler, loadTemplates_eq, hload]
  · intro p r
    have key : ∀ (σ : Type) (W : ResponseWriter σ) (w : σ),
        p.serve E W d { templates := some t, devMode := devMode, tmplDir := dir } w r =
          some ({ templates := some t, devMode := devMode, tmplDir := dir },
            (E.ExecuteTemplate t "base.html" p.data).output.foldl W.Write
              (W.HeaderSet w "Content-Type" "text/html; charset=utf-8"), []) := by
      intro σ W w
      rw [Page.serve_eq]
      cases devMode with
      | false =>
        rw [render_stored E W d _ w _ _ t rfl rfl]
        simp [respondWith, hexec p]
      | true =>
        rw [render_reload_ok E W d _ w _ _ t rfl hload]
        simp [respondWith, hexec p]
    refine ⟨key, ?_⟩
    have hw := recorder_writes_fresh (E.ExecuteTemplate t "base.html" p.data).output
      (NewRecorder.HeaderSet "Content-Type" "text/html; charset=utf-8") rfl rfl rfl
    refine ⟨_, key _ recorder NewRecorder, hw.1, ?_, ?_⟩
    · have h2 := hw.2.1
      show headerGet (ResponseRecorder.ResultHeader ((E.ExecuteTemplate t "base.html"
        p.data).output.foldl ResponseRecorder.Write
        (NewRecorder.HeaderSet "Content-Type" "text/html; charset=utf-8"))) _ = _
      rw [h2]
      decide
    · simpa [ResponseRecorder.HeaderSet, NewRecorder] using hw.2.2

/-- C4 at the test layout, as `main` starts it (development mode). -/
theorem pages_respond_ok_witness :
    ∃ h, NewPageHandler treeEngine (treeDisk [testBase]) "templates" true = .ok h ∧
      h.templates = testHandler.templates ∧
      ∀ (p : Page) (r : Request),
        (∀ (σ : Type) (W : ResponseWriter σ) (w : σ),
          p.serve treeEngine W (treeDisk [testBase]) h w r =
            some (h, (treeEngine.ExecuteTemplate
              { defs := [("base.html", [.text "<head><title>", .title,
                .text "</title></head><body>", .activeTab, .text "</body>"])] }
              "base.html" p.data).output.foldl W.Write
              (W.HeaderSet w "Content-Type" "text/html; charset=utf-8"), [])) ∧
        ∃ rw, p.serve treeEngine recorder (treeDisk [testBase]) h NewRecorder r =
            some (h, rw, []) ∧
          rw.StatusCode = 200 ∧
          headerGet rw.ResultHeader "Content-Type" = some "text/html; charset=utf-8" ∧
          rw.Body = (treeEngine.ExecuteTemplate
              { defs := [("base.html", [.text "<head><title>", .title,
                .text "</title></head><body>", .activeTab, .text "</body>"])] }
              "base.html" p.data).output :=
  pages_respond_ok treeEngine (treeDisk [testBase]) "templates" true _ rfl
    (fun p => by cases p <;> rfl)

/-! ### The logging decorator -/

/-- The static-asset condition never panics and holds exactly for the paths that
begin with `/static/`. -/
theorem isStaticPath_eq (path : GoString) :
    isStaticPath path = some (decide (staticLit <+: path)) := by
  unfold isStaticPath sliceTo
  by_cases hlen : path.length > 7
  · have h8 : 8 ≤ path.length := hlen
    simp only [hlen, h8, if_true, Option.map_some', Option.some.injEq, decide_eq_decide]
    rw [List.prefix_iff_eq_take]
    have h8len : staticLit.length = 8 := rfl
    rw [h8len]
    exact eq_comm
  · have hnot : ¬ staticLit <+: path := by
      intro hp
      have := hp.length_le
      simp [staticLit] at this
      omega
    simp [hlen, hnot]

/-- What the wrapper has recorded and forwarded after a sequence of calls. -/
theorem wrapWriter_performAll {σ : Type} (W : ResponseWriter σ) (calls : List Call)
    (rw : responseWriter σ) :
    (performAll (wrapWriter W) rw calls).status = (lastWriteHeader calls).getD rw.status ∧
    (performAll (wrapWriter W) rw calls).ResponseWriter =
      performAll W rw.ResponseWriter calls := by
  induction calls generalizing rw with
  | nil => exact ⟨rfl, rfl⟩
  | cons c cs ih =>
    have hstep := ih (Call.perform (wrapWriter W) rw c)
    simp only [performAll, List.foldl_cons] at hstep ⊢
    refine ⟨?_, ?_⟩
    · rw [hstep.1]
      cases hl : lastWriteHeader cs with
      | some code => simp [lastWriteHeader, hl]
      | none => cases c <;> simp [lastWriteHeader, hl, Call.perform, wrapWriter,
          responseWriter.WriteHeader, responseWriter.Write, responseWriter.HeaderSet]
    · rw [hstep.2]
      cases c <;> rfl

/-- C5: for every path, every handler and every writer, the decorator serves the
request with the wrapped handler once (the handler state advances by one
`ServeHTTP`), never panics, and logs exactly one record when the path does not
begin with `/static/` (carrying the status recorded while the handler ran) and
none when it does; the condition in the code is equivalent to the path having
that literal as its beginning. -/
theorem loggingMiddleware_logs_non_static {η σ : Type} (W : ResponseWriter σ)
    (next : Handler η) (elapsed : Nat) (s : η) (w : σ) (r : Request) :
    loggingMiddleware W next elapsed s w r =
      some ((next.ServeHTTP s r).1, performAll W w (next.ServeHTTP s r).2,
        if staticLit <+: r.Path then []
        else [requestRecord r ((lastWriteHeader (next.ServeHTTP s r).2).getD 200) elapsed]) ∧
    (decide (r.Path.length > 7) && decide (r.Path.take 8 = staticLit)) =
      decide (staticLit <+: r.Path) ∧
    isStaticPath r.Path = some (decide (staticLit <+: r.Path)) := by
  have hst := isStaticPath_eq r.Path
  have hw := wrapWriter_performAll W (next.ServeHTTP s r).2 { ResponseWriter := w, status := 200 }
  refine ⟨?_, ?_, hst⟩
  · simp only [loggingMiddleware, hst, StatusOK]
    by_cases hp : staticLit <+: r.Path
    · simp [hp, hw.2]
    · simp [hp, hw.1, hw.2]
  · have h2 := hst
    unfold isStaticPath sliceTo at h2
    by_cases hlen : r.Path.length > 7
    · have h8 : 8 ≤ r.Path.length := hlen
      simp only [hlen, h8, if_true, Option.map_some', Option.some.injEq] at h2
      simp [hlen, h2]
    · simp only [hlen, if_false, Option.some.injEq] at h2
      simp [hlen, ← h2]

/-- The decorator on the three requests of `TestLoggingMiddleware` and on the
empty path: the handler runs once each time, only the static request is not logged. -/
theorem loggingMiddleware_test_requests :
    (loggingMiddleware recorder countingHandler 3 0 NewRecorder rootRequest).map
        (fun res => (res.1, res.2.2)) = some (1, [requestRecord rootRequest 200 3]) ∧
    (loggingMiddleware recorder countingHandler 3 0 NewRecorder staticRequest).map
        (fun res => (res.1, res.2.2)) = some (1, []) ∧
    (loggingMiddleware recorder countingHandler 3 0 NewRecorder
        { Method := "GET", Path := [] }).map (fun res => (res.1, res.2.2)) =
      some (1, [requestRecord { Method := "GET", Path := [] } 200 3]) := by
  decide

/-- The call log after a sequence of calls is the log before followed by the calls. -/
theorem callLog_performAll (calls log : List Call) :
    performAll callLog log calls = log ++ calls := by
  induction calls generalizing log with
  | nil => simp [performAll]
  | cons c cs ih =>
    simp only [performAll, List.foldl_cons] at ih ⊢
    rw [ih]
    cases c <;> simp [Call.perform, callLog]

/-- C7: starting from status 200, after any finite sequence of calls the wrapper
holds the code of the most recent `WriteHeader` call, or 200 if there was none;
a `Write` never changes the recorded status; every call reaches the underlying
writer unchanged, in particular each `WriteHeader(code)` with the same code (the
underlying writer ends in the state the same calls made directly would produce,
and a call log underneath shows exactly the calls made). -/
theorem responseWriter_records_last_code {σ : Type} (W : ResponseWriter σ) (w : σ)
    (calls : List Call) :
    (performAll (wrapWriter W) { ResponseWriter := w, status := 200 } calls).status =
      (lastWriteHeader calls).getD 200 ∧
    (performAll (wrapWriter W) { ResponseWriter := w, status := 200 } calls).ResponseWriter =
      performAll W w calls ∧
    (∀ (x : responseWriter σ) (chunk : String), (x.Write W chunk).status = x.status) ∧
    (∀ (x : responseWriter σ) (code : Int),
      (x.WriteHeader W code).status = code ∧
      (x.WriteHeader W code).ResponseWriter = W.WriteHeader x.ResponseWriter code) ∧
    (performAll (wrapWriter callLog) { ResponseWriter := [], status := 200 }
      calls).ResponseWriter = calls := by
  have hw := wrapWriter_performAll W calls { ResponseWriter := w, status := 200 }
  refine ⟨hw.1, hw.2, fun _ _ => rfl, fun _ _ => ⟨rfl, rfl⟩, ?_⟩
  rw [(wrapWriter_performAll callLog calls { ResponseWriter := [], status := 200 }).2,
    callLog_performAll]
  rfl

/-- Once the status line is out, no call changes the status of the recorder. -/
theorem recorder_status_frozen (calls : List Call) (rw : ResponseRecorder)
    (hw : rw.wroteHeader = true) :
    (performAll recorder rw calls).StatusCode = rw.Code := by
  induction calls generalizing rw with
  | nil => rfl
  | cons c cs ih =>
    simp only [performAll, List.foldl_cons] at ih ⊢
    cases c with
    | headerSet k v =>
      rw [ih (Call.perform recorder rw (.headerSet k v)) hw]
      rfl
    | write chunk =>
      have h1 : (Call.perform recorder rw (.write chunk)).wroteHeader = true := by
        simp [Call.perform, recorder, ResponseRecorder.Write, ResponseRecorder.WriteHeader, hw]
      rw [ih _ h1]
      simp [Call.perform, recorder, ResponseRecorder.Write, ResponseRecorder.WriteHeader, hw]
    | writeHeader code =>
      have h1 : Call.perform recorder rw (.writeHeader code) = rw := by
        simp [Call.perform, recorder, ResponseRecorder.WriteHeader, hw]
      rw [h1, ih rw hw]

/-- The status a recorder sends is fixed by the first call that commits the
status line; the recorder treats no code as informational. -/
theorem recorder_status_first_commit (calls : List Call) (rw : ResponseRecorder)
    (hw : rw.wroteHeader = false) :
    (performAll recorder rw calls).StatusCode =
      (firstCommit (fun _ => false) calls).getD rw.Code := by
  induction calls generalizing rw with
  | nil => rfl
  | cons c cs ih =>
    cases c with
    | headerSet k v =>
      simp only [performAll, List.foldl_cons] at ih ⊢
      rw [ih (Call.perform recorder rw (.headerSet k v)) hw]
      rfl
    | write chunk =>
      have h1 : (Call.perform recorder rw (.write chunk)).wroteHeader = true := by
        simp [Call.perform, recorder, ResponseRecorder.Write, ResponseRecorder.WriteHeader, hw]
      have h2 := recorder_status_frozen cs _ h1
      simp only [performAll, List.foldl_cons] at h2 ⊢
      rw [h2]
      simp [Call.perform, recorder, ResponseRecorder.Write, ResponseRecorder.WriteHeader, hw,
        firstCommit]
    | writeHeader code =>
      have h1 : (Call.perform recorder rw (.writeHeader code)).wroteHeader = true := by
        simp [Call.perform, recorder, ResponseRecorder.WriteHeader, hw]
      have h2 := recorder_status_frozen cs _ h1
      simp only [performAll, List.foldl_cons] at h2 ⊢
      rw [h2]
      simp [Call.perform, recorder, ResponseRecorder.WriteHeader, hw, firstCommit]

/-- Once the final status line is fixed, no call changes the status a server sends. -/
theorem statusWriter_frozen (interim : Int → Bool) (calls : List Call) (w : StatusLine)
    (hw : w.wroteHeader = true) :
    (performAll (statusWriter interim) w calls).sent = w.status := by
  induction calls generalizing w with
  | nil => simp [performAll, StatusLine.sent, hw]
  | cons c cs ih =>
    have hsame : Call.perform (statusWriter interim) w c = w := by
      cases c <;> simp [Call.perform, statusWriter, hw]
    simp only [performAll, List.foldl_cons] at ih ⊢
    rw [hsame, ih w hw]

/-- The status a server sends is fixed by the first call that commits the status
line, and is 200 when no call does. -/
theorem statusWriter_first_commit (interim : Int → Bool) (calls : List Call) (w : StatusLine)
    (hw : w.wroteHeader = false) :
    (performAll (statusWriter interim) w calls).sent =
      (firstCommit interim calls).getD 200 := by
  induction calls generalizing w with
  | nil => simp [performAll, StatusLine.sent, hw, firstCommit]
  | cons c cs ih =>
    cases c with
    | headerSet k v =>
      simp only [performAll, List.foldl_cons] at ih ⊢
      have hsame : Call.perform (statusWriter interim) w (.headerSet k v) = w := rfl
      rw [hsame, ih w hw]
      rfl
    | write chunk =>
      have h2 := statusWriter_frozen interim cs
        (Call.perform (statusWriter interim) w (.write chunk))
        (by simp [Call.perform, statusWriter, hw])
      simp only [performAll, List.foldl_cons] at h2 ⊢
      rw [h2]
      simp [Call.perform, statusWriter, hw, firstCommit]
    | writeHeader code =>
      cases hi : interim code with
      | true =>
        simp only [performAll, List.foldl_cons] at ih ⊢
        rw [ih (Call.perform (statusWriter interim) w (.writeHeader code))
          (by simp [Call.perform, statusWriter, hw, hi])]
        simp [firstCommit, hi]
      | false =>
        have h2 := statusWriter_frozen interim cs
          (Call.perform (statusWriter interim) w (.writeHeader code))
          (by simp [Call.perform, statusWriter, hw, hi])
        simp only [performAll, List.foldl_cons] at h2 ⊢
        rw [h2]
        simp [Call.perform, statusWriter, hw, hi, firstCommit]

/-- Without a `WriteHeader` call there is no last code. -/
theorem lastWriteHeader_none (calls : List Call)
    (hno : ∀ code, Call.writeHeader code ∉ calls) : lastWriteHeader calls = none := by
  induction calls with
  | nil => rfl
  | cons c cs ih =>
    have hcs : ∀ code, Call.writeHeader code ∉ cs := fun code hm =>
      hno code (List.mem_cons_of_mem _ hm)
    cases c with
    | writeHeader code => exact absurd (List.mem_cons_self _ _) (hno code)
    | headerSet k v => simp [lastWriteHeader, ih hcs]
    | write chunk => simp [lastWriteHeader, ih hcs]

/-- Without a `WriteHeader` call the status line can only be the implied 200. -/
theorem firstCommit_no_header (interim : Int → Bool) (calls : List Call)
    (hno : ∀ code, Call.writeHeader code ∉ calls) :
    (firstCommit interim calls).getD 200 = 200 := by
  induction calls with
  | nil => rfl
  | cons c cs ih =>
    have hcs : ∀ code, Call.writeHeader code ∉ cs := fun code hm =>
      hno code (List.mem_cons_of_mem _ hm)
    cases c with
    | writeHeader code => exact absurd (List.mem_cons_self _ _) (hno code)
    | headerSet k v => simpa [firstCommit] using ih hcs
    | write chunk => rfl

/-- The last code of a sequence whose tail after a `WriteHeader` has no further one. -/
theorem lastWriteHeader_single (hs rest : List Call) (code : Int)
    (hrest : ∀ code1, Call.writeHeader code1 ∉ rest) :
    lastWriteHeader (hs ++ Call.writeHeader code :: rest) = some code := by
  induction hs with
  | nil => simp [lastWriteHeader, lastWriteHeader_none rest hrest]
  | cons c cs ih => simp [lastWriteHeader, ih]

/-- The committing call of a sequence that only sets headers before its first
`WriteHeader`, whose code is not informational. -/
theorem firstCommit_single (interim : Int → Bool) (hs rest : List Call) (code : Int)
    (hhs : ∀ c ∈ hs, ∃ k v, c = Call.headerSet k v) (hfinal : interim code = false) :
    firstCommit interim (hs ++ Call.writeHeader code :: rest) = some code := by
  induction hs with
  | nil => simp [firstCommit, hfinal]
  | cons c cs ih =>
    obtain ⟨k, v, rfl⟩ := hhs c (List.mem_cons_self _ _)
    simpa [firstCommit] using ih (fun c hc => hhs c (List.mem_cons_of_mem _ hc))

/-- C6 (as stated, refuted): the handler of `TestResponseWriter_MultipleWriteHeader`
calls `WriteHeader(201)` and then `WriteHeader(400)`; the recorder sends 201, the
log record says 400. -/
theorem logged_status_counterexample :
    (loggingMiddleware recorder twiceHandler 0 () NewRecorder rootRequest).map
      (fun res => (res.2.1.StatusCode, res.2.2)) =
    some (201, [requestRecord rootRequest 400 0]) := by
  decide

/-- On the HTTP/1 server a handler that only announces early hints with
`WriteHeader(103)` is logged with 103 while the client receives the final
status 200. -/
theorem early_hints_logged_status :
    (loggingMiddleware (statusWriter informational) hintsHandler 0 () StatusLine.fresh
        rootRequest).map (fun res => (res.2.1.sent, res.2.1.interimSent, res.2.2)) =
      some (200, [103], [requestRecord rootRequest 103 0]) := by
  decide

/-- C6 (amended): for a handler that returns, its codes being within 100..999.
On a server writer (whatever 1xx codes it treats as informational) and on the
recorder of the tests alike, the status of the log record is the code of the last
`WriteHeader` call of the handler (200 if it made none), while the status sent is
the one fixed by the first committing call: the first `WriteHeader` whose code
the writer does not treat as informational, or the 200 implied by the first
`Write` or by returning without either.  The two agree when the handler never
calls `WriteHeader`, and when it calls it once, with a code of 200 or above and
only header settings before it. -/
theorem logged_status_is_last_code {η : Type} (next : Handler η) (elapsed : Nat) (s : η)
    (r : Request) (hpath : ¬ staticLit <+: r.Path)
    (_hvalid : ∀ code, Call.writeHeader code ∈ (next.ServeHTTP s r).2 →
      100 ≤ code ∧ code ≤ 999) :
    (∀ interim : Int → Bool,
      ∃ out, loggingMiddleware (statusWriter interim) next elapsed s StatusLine.fresh r =
          some ((next.ServeHTTP s r).1, out,
            [requestRecord r ((lastWriteHeader (next.ServeHTTP s r).2).getD 200) elapsed]) ∧
        out.sent = (firstCommit interim (next.ServeHTTP s r).2).getD 200 ∧
        ((∀ code, interim code = true → code < 200) →
          ((∀ code, Call.writeHeader code ∉ (next.ServeHTTP s r).2) →
            (lastWriteHeader (next.ServeHTTP s r).2).getD 200 = out.sent) ∧
          (∀ hs code rest, (next.ServeHTTP s r).2 = hs ++ Call.writeHeader code :: rest →
            (∀ c ∈ hs, ∃ k v, c = Call.headerSet k v) →
            (∀ code1, Call.writeHeader code1 ∉ rest) → 200 ≤ code →
            (lastWriteHeader (next.ServeHTTP s r).2).getD 200 = out.sent))) ∧
    ∃ rw, loggingMiddleware recorder next elapsed s NewRecorder r =
        some ((next.ServeHTTP s r).1, rw,
          [requestRecord r ((lastWriteHeader (next.ServeHTTP s r).2).getD 200) elapsed]) ∧
      rw.StatusCode = (firstCommit (fun _ => false) (next.ServeHTTP s r).2).getD 200 ∧
      ((∀ code, Call.writeHeader code ∉ (next.ServeHTTP s r).2) →
        (lastWriteHeader (next.ServeHTTP s r).2).getD 200 = rw.StatusCode) ∧
      (∀ hs code rest, (next.ServeHTTP s r).2 = hs ++ Call.writeHeader code :: rest →
        (∀ c ∈ hs, ∃ k v, c = Call.headerSet k v) →
        (∀ code1, Call.writeHeader code1 ∉ rest) →
        (lastWriteHeader (next.ServeHTTP s r).2).getD 200 = rw.StatusCode) := by
  constructor
  · intro interim
    have hw := wrapWriter_performAll (statusWriter interim) (next.ServeHTTP s r).2
      { ResponseWriter := StatusLine.fresh, status := 200 }
    have hsent := statusWriter_first_commit interim (next.ServeHTTP s r).2 StatusLine.fresh rfl
    refine ⟨performAll (statusWriter interim) StatusLine.fresh (next.ServeHTTP s r).2,
      ?_, hsent, ?_⟩
    · simp only [loggingMiddleware, isStaticPath_eq, StatusOK]
      simp [hpath, hw.1, hw.2]
    · intro hbound
      constructor
      · intro hno
        rw [hsent, lastWriteHeader_none _ hno]
        exact (firstCommit_no_header interim _ hno).symm
      · intro hs code rest hcalls hhs hrest hcode
        have hfinal : interim code = false := by
          cases hi : interim code with
          | false => rfl
          | true =>
            have := hbound code hi
            omega
        rw [hsent, hcalls, lastWriteHeader_single hs rest code hrest,
          firstCommit_single interim hs rest code hhs hfinal]
  · have hw := wrapWriter_performAll recorder (next.ServeHTTP s r).2
      { ResponseWriter := NewRecorder, status := 200 }
    have hsent := recorder_status_first_commit (next.ServeHTTP s r).2 NewRecorder rfl
    refine ⟨performAll recorder NewRecorder (next.ServeHTTP s r).2, ?_, hsent, ?_, ?_⟩
    · simp only [loggingMiddleware, isStaticPath_eq, StatusOK]
      simp [hpath, hw.1, hw.2]
    · intro hno
      rw [hsent, lastWriteHeader_none _ hno]
      exact (firstCommit_no_header _ _ hno).symm
    · intro hs code rest hcalls hhs hrest
      rw [hsent, hcalls, lastWriteHeader_single hs rest code hrest,
        firstCommit_single _ hs rest code hhs rfl]
      rfl

/-- C6 (amended) at the handler of `TestLoggingMiddleware` on `GET /`, on the
HTTP/1 server writer: one `WriteHeader(200)` up front, logged and sent status are
both 200. -/
theorem logged_status_is_last_code_witness :
    ∃ out, loggingMiddleware (statusWriter informational) countingHandler 0 0
          StatusLine.fresh rootRequest =
        some (1, out, [requestRecord rootRequest 200 0]) ∧ out.sent = 200 := by
  obtain ⟨out, hrun, hsent, _⟩ :=
    (logged_status_is_last_code countingHandler 0 0 rootRequest (by decide)
      (by
        intro code hmem
        simp [countingHandler] at hmem
        subst hmem
        decide)).1 informational
  exact ⟨out, hrun, hsent⟩

/-! ### Configuration -/

/-- `getEnv` computes the documented value of a string setting. -/
theorem getEnv_eq (env : Environ) (key dflt : String) :
    getEnv env key dflt = specString env key dflt := by
  unfold getEnv specString Getenv
  cases env key with
  | none => simp
  | some v => by_cases hv : v = "" <;> simp [hv]

/-- `getEnvFloat` computes the documented value of a numeric setting. -/
theorem getEnvFloat_eq (pf : String → Float × Option Error) (env : Environ) (key : String)
    (dflt : Float) : getEnvFloat pf env key dflt = specFloat pf env key dflt := by
  unfold getEnvFloat specFloat Getenv
  cases env key with
  | none => simp
  | some v =>
    by_cases hv : v = ""
    · simp [hv]
    · rcases hp : pf v with ⟨f, _ | e⟩ <;> simp [hv, hp]

/-- C8: for every environment and every behaviour of the float parser, `Load`
returns a configuration (it has no failure path) whose port is `PORT` if set and
non-empty and `8080` otherwise, and whose three coordinates are, independently,
the parsed variable if it is set, non-empty and parses, and the defaults
47.315813, 39.788243 and 70.0 otherwise. -/
theorem Load_defaults (pf : String → Float × Option Error) (env : Environ) :
    (Load pf env).Port = specString env "PORT" "8080" ∧
    (Load pf env).ObserverLat = specFloat pf env "OBSERVER_LAT" 47.315813 ∧
    (Load pf env).ObserverLon = specFloat pf env "OBSERVER_LON" 39.788243 ∧
    (Load pf env).ObserverAlt = specFloat pf env "OBSERVER_ALT" 70.0 :=
  ⟨getEnv_eq env _ _, getEnvFloat_eq pf env _ _, getEnvFloat_eq pf env _ _,
    getEnvFloat_eq pf env _ _⟩

/-- The cases of the configuration tests: nothing set; malformed latitude and
longitude next to a valid altitude and an empty port. -/
theorem Load_test_cases :
    (Load testParseFloat (fun _ => none)).Port = "8080" ∧
    (Load testParseFloat (fun _ => none)).ObserverLat = 47.315813 ∧
    (Load testParseFloat (fun _ => none)).ObserverLon = 39.788243 ∧
    (Load testParseFloat (fun _ => none)).ObserverAlt = 70.0 ∧
    (Load testParseFloat testEnviron).Port = "8080" ∧
    (Load testParseFloat testEnviron).ObserverLat = 47.315813 ∧
    (Load testParseFloat testEnviron).ObserverLon = 39.788243 ∧
    (Load testParseFloat testEnviron).ObserverAlt = 11.0 :=
  ⟨rfl, rfl, rfl, rfl, rfl, rfl, rfl, rfl⟩

/-! ### The process -/

/-- The case the `select` of `main` takes, read off what the world does: a fatal
serve error is received when no signal competes with it (or the tie goes to it),
the signal is received when no fatal serve error competes with it (or the tie
goes to the signal), and nothing is received when neither arrives. -/
theorem World.select_cases {τ : Type} (w : World τ) :
    (∀ err, w.serveErr = some err → err ≠ ErrServerClosed →
      (w.signal = none ∨ w.signalFirst = false) → w.select = some (.serverErr err)) ∧
    (∀ sig, w.signal = some sig →
      (w.serveErr = none ∨ w.serveErr = some ErrServerClosed ∨ w.signalFirst = true) →
      w.select = some (.quit sig)) ∧
    ((w.serveErr = none ∨ w.serveErr = some ErrServerClosed) → w.signal = none →
      w.select = none) := by
  refine ⟨?_, ?_, ?_⟩
  · intro err hse hne hsig
    cases hs : w.signal with
    | none => simp [World.select, World.sentErr, hse, hne, hs]
    | some sig =>
      rcases hsig with h | h
      · rw [hs] at h
        cases h
      · simp [World.select, World.sentErr, hse, hne, hs, h]
  · intro sig hs hse
    cases hserve : w.serveErr with
    | none => simp [World.select, World.sentErr, hserve, hs]
    | some err =>
      by_cases hne : err = ErrServerClosed
      · simp [World.select, World.sentErr, hserve, hs, hne]
      · rcases hse with h | h | h
        · rw [hserve] at h
          cases h
        · rw [hserve] at h
          exact absurd (Option.some.inj h) hne
        · simp [World.select, World.sentErr, hserve, hs, hne, h]
  · intro hse hs
    rcases hse with h | h
    · simp [World.select, World.sentErr, h, hs]
    · simp [World.select, World.sentErr, h, hs]

/-- C9: the exit code of `main`, from what the world does.  If `NewPageHandler`
fails, `main` exits 1.  Otherwise: if `ListenAndServe` returns an error other than
`ErrServerClosed` and no signal is received before it, `main` exits 1; if a
termination signal is received, `main` exits 1 when `Shutdown` returns an error
and 0 when it does not; if neither arrives, `main` never terminates.  Hence in
every terminating run the exit code is 1 exactly in the three failure cases and 0
otherwise. -/
theorem main_exit_code {τ : Type} (E : Engine τ) (w : World τ) :
    (∀ e, NewPageHandler E w.disk "templates" true = .error e →
      ∃ trace, main E w = some (1, trace)) ∧
    (∀ h, NewPageHandler E w.disk "templates" true = .ok h →
      (∀ err, w.serveErr = some err → err ≠ ErrServerClosed →
        (w.signal = none ∨ w.signalFirst = false) →
        ∃ trace, main E w = some (1, trace) ∧ MainEvent.shutdown ∉ trace) ∧
      (∀ sig, w.signal = some sig →
        (w.serveErr = none ∨ w.serveErr = some ErrServerClosed ∨ w.signalFirst = true) →
        (∀ e, w.shutdownErr = some e →
          ∃ trace, main E w = some (1, trace) ∧ MainEvent.shutdown ∈ trace) ∧
        (w.shutdownErr = none →
          ∃ trace, main E w = some (0, trace) ∧ MainEvent.shutdown ∈ trace)) ∧
      ((w.serveErr = none ∨ w.serveErr = some ErrServerClosed) → w.signal = none →
        main E w = none)) ∧
    (∀ code trace, main E w = some (code, trace) →
      (code = 1 ↔
        (∃ e, NewPageHandler E w.disk "templates" true = .error e) ∨
        (∃ err, w.serveErr = some err ∧ err ≠ ErrServerClosed ∧
          (w.signal = none ∨ w.signalFirst = false)) ∨
        (∃ sig e, w.signal = some sig ∧
          (w.serveErr = none ∨ w.serveErr = some ErrServerClosed ∨ w.signalFirst = true) ∧
          w.shutdownErr = some e)) ∧
      (code ≠ 1 → code = 0)) := by
  obtain ⟨hfatal, hquit, hnothing⟩ := World.select_cases w
  have hrun : ∀ h, NewPageHandler E w.disk "templates" true = .ok h →
      (∀ err, w.serveErr = some err → err ≠ ErrServerClosed →
        (w.signal = none ∨ w.signalFirst = false) →
        ∃ trace, main E w = some (1, trace) ∧ MainEvent.shutdown ∉ trace) ∧
      (∀ sig, w.signal = some sig →
        (w.serveErr = none ∨ w.serveErr = some ErrServerClosed ∨ w.signalFirst = true) →
        (∀ e, w.shutdownErr = some e →
          ∃ trace, main E w = some (1, trace) ∧ MainEvent.shutdown ∈ trace) ∧
        (w.shutdownErr = none →
          ∃ trace, main E w = some (0, trace) ∧ MainEvent.shutdown ∈ trace)) ∧
      ((w.serveErr = none ∨ w.serveErr = some ErrServerClosed) → w.signal = none →
        main E w = none) := by
    intro h hn
    refine ⟨?_, ?_, ?_⟩
    · intro err hse hne hsig
      have hm : main E w = some (1, [.log "INFO" "configuration loaded",
          .log "INFO" "starting server", .listenAndServe (Load w.parseFloat w.environ).Addr,
          .log "ERROR" "server error"]) := by
        simp [main, hn, hfatal err hse hne hsig]
      exact ⟨_, hm, by simp⟩
    · intro sig hs hse
      constructor
      · intro e hsd
        have hm : main E w = some (1, [.log "INFO" "configuration loaded",
            .log "INFO" "starting server", .listenAndServe (Load w.parseFloat w.environ).Addr,
            .log "INFO" "received shutdown signal", .log "INFO" "shutting down server...",
            .shutdown, .log "ERROR" "server shutdown error"]) := by
          simp [main, hn, hquit sig hs hse, hsd]
        exact ⟨_, hm, by simp⟩
      · intro hsd
        have hm : main E w = some (0, [.log "INFO" "configuration loaded",
            .log "INFO" "starting server", .listenAndServe (Load w.parseFloat w.environ).Addr,
            .log "INFO" "received shutdown signal", .log "INFO" "shutting down server...",
            .shutdown, .log "INFO" "server stopped gracefully"]) := by
          simp [main, hn, hquit sig hs hse, hsd]
        exact ⟨_, hm, by simp⟩
    · intro hse hs
      simp [main, hn, hnothing hse hs]
  refine ⟨?_, hrun, ?_⟩
  · intro e hn
    have hm : main E w = some (1, [.log "INFO" "configuration loaded",
        .log "ERROR" "failed to initialize page handler"]) := by
      simp [main, hn]
    exact ⟨_, hm⟩
  · intro code trace hmain
    cases hn : NewPageHandler E w.disk "templates" true with
    | error e =>
      simp only [main, hn, Option.some.injEq, Prod.mk.injEq] at hmain
      obtain ⟨rfl, _⟩ := hmain
      simp
    | ok h =>
      obtain ⟨h1, h2, h3⟩ := hrun h hn
      by_cases hf : ∃ err, w.serveErr = some err ∧ err ≠ ErrServerClosed ∧
          (w.signal = none ∨ w.signalFirst = false)
      · obtain ⟨err, hse, hne, hsig⟩ := hf
        obtain ⟨tr, htr, _⟩ := h1 err hse hne hsig
        rw [htr] at hmain
        simp only [Option.some.injEq, Prod.mk.injEq] at hmain
        obtain ⟨rfl, _⟩ := hmain
        exact ⟨⟨fun _ => Or.inr (Or.inl ⟨err, hse, hne, hsig⟩), fun _ => rfl⟩,
          fun hc => absurd rfl hc⟩
      · have hfree : w.signal = none ∨
            (w.serveErr = none ∨ w.serveErr = some ErrServerClosed ∨ w.signalFirst = true) := by
          cases hse : w.serveErr with
          | none => exact Or.inr (Or.inl rfl)
          | some err =>
            by_cases hne : err = ErrServerClosed
            · exact Or.inr (Or.inr (Or.inl (by rw [hne])))
            · cases hs : w.signal with
              | none => exact absurd ⟨err, hse, hne, Or.inl hs⟩ hf
              | some sig =>
                cases hfirst : w.signalFirst with
                | true => exact Or.inr (Or.inr (Or.inr rfl))
                | false => exact absurd ⟨err, hse, hne, Or.inr hfirst⟩ hf
        cases hs : w.signal with
        | none =>
          have hclosed : w.serveErr = none ∨ w.serveErr = some ErrServerClosed := by
            cases hse : w.serveErr with
            | none => exact Or.inl rfl
            | some err =>
              by_cases hne : err = ErrServerClosed
              · exact Or.inr (by rw [hne])
              · exact absurd ⟨err, hse, hne, Or.inl hs⟩ hf
          rw [h3 hclosed hs] at hmain
          cases hmain
        | some sig =>
          have hse : w.serveErr = none ∨ w.serveErr = some ErrServerClosed ∨
              w.signalFirst = true := by
            rcases hfree with h | h
            · rw [hs] at h
              cases h
            · exact h
          cases hsd : w.shutdownErr with
          | some e =>
            obtain ⟨tr, htr, _⟩ := (h2 sig hs hse).1 e hsd
            rw [htr] at hmain
            simp only [Option.some.injEq, Prod.mk.injEq] at hmain
            obtain ⟨rfl, _⟩ := hmain
            exact ⟨⟨fun _ => Or.inr (Or.inr ⟨sig, e, rfl, hse, rfl⟩), fun _ => rfl⟩,
              fun hc => absurd rfl hc⟩
          | none =>
            obtain ⟨tr, htr, _⟩ := (h2 sig hs hse).2 hsd
            rw [htr] at hmain
            simp only [Option.some.injEq, Prod.mk.injEq] at hmain
            obtain ⟨rfl, _⟩ := hmain
            refine ⟨⟨fun h01 => absurd h01 (by decide), ?_⟩, fun _ => rfl⟩
            rintro (⟨e, he⟩ | ⟨err, hse1, hne, hsig⟩ | ⟨sig1, e, _, _, he⟩)
            · cases he
            · exact absurd ⟨err, hse1, hne, by rw [hs]; exact hsig⟩ hf
            · cases he

/-- C9 on four runs over the test layout: the listener cannot bind and no signal
comes (exit 1 without a shutdown), a signal followed by a clean shutdown (exit
0), a signal followed by an overrun shutdown deadline (exit 1), and a run in
which neither a fatal serve error nor a signal ever arrives (no exit). -/
theorem main_exit_code_witness :
    (∃ trace, main treeEngine bindFailWorld = some (1, trace) ∧ MainEvent.shutdown ∉ trace) ∧
    (∃ trace, main treeEngine (calmWorld [testBase]) = some (0, trace) ∧
      MainEvent.shutdown ∈ trace) ∧
    (∃ trace, main treeEngine { calmWorld [testBase] with
        shutdownErr := some "context deadline exceeded" } = some (1, trace) ∧
      MainEvent.shutdown ∈ trace) ∧
    main treeEngine { calmWorld [testBase] with signal := none } = none :=
  ⟨((main_exit_code treeEngine bindFailWorld).2.1 _ rfl).1
      "listen tcp :8080: bind: address already in use" rfl (by decide) (Or.inl rfl),
   (((main_exit_code treeEngine (calmWorld [testBase])).2.1 _ rfl).2.1
      "terminated" rfl (Or.inl rfl)).2 rfl,
   (((main_exit_code treeEngine { calmWorld [testBase] with
        shutdownErr := some "context deadline exceeded" }).2.1 _ rfl).2.1
      "terminated" rfl (Or.inl rfl)).1 "context deadline exceeded" rfl,
   ((main_exit_code treeEngine { calmWorld [testBase] with signal := none }).2.1 _ rfl).2.2
      (Or.inl rfl) rfl⟩

/-- C10 (as stated, refuted): the directory `templates` holds the single file
`pages/test.html` and no `base.html`.  The recursive glob matches the page, so
`NewPageHandler` succeeds, the stored set does not define `base.html`, and `main`
goes on to bind the listener and ends with code 0 after a signal; the first page
request is then answered 500. -/
theorem startup_without_base_counterexample :
    (∀ f ∈ [pageOnly], f.name ≠ "base.html") ∧
    NewPageHandler treeEngine (treeDisk [pageOnly]) "templates" true =
      .ok { templates := some { defs := [("test.html", []),
              ("content", [.text "<h1>Test Page</h1>"])] }
            devMode := true, tmplDir := "templates" } ∧
    Template.defined { defs := [("test.html", []), ("content", [.text "<h1>Test Page</h1>"])] }
      "base.html" = false ∧
    main treeEngine (calmWorld [pageOnly]) =
      some (0, [.log "INFO" "configuration loaded", .log "INFO" "starting server",
        .listenAndServe ":8080", .log "INFO" "received shutdown signal",
        .log "INFO" "shutting down server...", .shutdown,
        .log "INFO" "server stopped gracefully"]) ∧
    (Tracking treeEngine recorder (treeDisk [pageOnly])
        { templates := some { defs := [("test.html", []),
            ("content", [.text "<h1>Test Page</h1>"])] }
          devMode := true, tmplDir := "templates" }
        NewRecorder trackingRequest).map (fun res => res.2.1.StatusCode) = some 500 := by
  refine ⟨by decide, rfl, rfl, rfl, by decide⟩

/-- C10 (amended): whenever the templates of the directory fail to load,
`NewPageHandler` returns that error (for any directory and mode), and `main` exits
with code 1 having logged the failure and without ever starting the listener. -/
theorem startup_fails_when_load_fails {τ : Type} (E : Engine τ) (w : World τ) (e : Error)
    (hload : specLoad E w.disk "templates" = .error e) :
    NewPageHandler E w.disk "templates" true = .error e ∧
    main E w = some (1, [.log "INFO" "configuration loaded",
      .log "ERROR" "failed to initialize page handler"]) ∧
    (∀ trace, main E w = some (1, trace) → ∀ addr, MainEvent.listenAndServe addr ∉ trace) := by
  have hn : NewPageHandler E w.disk "templates" true = .error e := by
    simp [NewPageHandler, loadTemplates_eq, hload]
  have hm : main E w = some (1, [.log "INFO" "configuration loaded",
      .log "ERROR" "failed to initialize page handler"]) := by
    simp [main, hn]
  refine ⟨hn, hm, ?_⟩
  intro trace ht addr hmem
  rw [hm] at ht
  cases ht
  simp at hmem

/-- C10 (amended) on an empty tree, the nonexistent directory of
`TestNewPageHandler_InvalidDirectory`: nothing matches, startup fails. -/
theorem startup_fails_when_load_fails_witness :
    NewPageHandler treeEngine (calmWorld []).disk "templates" true =
      .error "html/template: pattern matches no files: templates/layouts/*.html" ∧
    main treeEngine (calmWorld []) = some (1, [.log "INFO" "configuration loaded",
      .log "ERROR" "failed to initialize page handler"]) ∧
    (∀ trace, main treeEngine (calmWorld []) = some (1, trace) →
      ∀ addr, MainEvent.listenAndServe addr ∉ trace) :=
  startup_fails_when_load_fails treeEngine (calmWorld [])
    "html/template: pattern matches no files: templates/layouts/*.html" rfl

/-! ### The static-asset check on short paths -/

/-- C12: for every path the static-asset check yields a boolean and never the
out-of-range panic.  On a path of at most 7 bytes (such as the empty path and
`/`) the answer is `false` although the slice `path[:8]` taken on its own would
panic there, so the slice is not evaluated; on a longer path the slice is in
range.  Hence the decorator itself never panics. -/
theorem static_check_in_bounds (path : GoString) :
    (∃ b, isStaticPath path = some b) ∧
    (path.length ≤ 7 → sliceTo path 8 = none ∧ isStaticPath path = some false) ∧
    (7 < path.length → sliceTo path 8 = some (path.take 8) ∧
      isStaticPath path = some (decide (path.take 8 = staticLit))) ∧
    (∀ {η σ : Type} (W : ResponseWriter σ) (next : Handler η) (elapsed : Nat) (s : η) (w : σ)
      (method : String),
      loggingMiddleware W next elapsed s w { Method := method, Path := path } ≠ none) := by
  have hshort : path.length ≤ 7 → sliceTo path 8 = none ∧ isStaticPath path = some false := by
    intro hlen
    have h7 : ¬ path.length > 7 := by omega
    have h8 : ¬ 8 ≤ path.length := by omega
    simp [isStaticPath, sliceTo, h7, h8]
  have hlong : 7 < path.length → sliceTo path 8 = some (path.take 8) ∧
      isStaticPath path = some (decide (path.take 8 = staticLit)) := by
    intro hlen
    have h7 : path.length > 7 := hlen
    have h8 : 8 ≤ path.length := hlen
    simp [isStaticPath, sliceTo, h7, h8]
  refine ⟨⟨_, isStaticPath_eq path⟩, hshort, hlong, ?_⟩
  intro η σ W next elapsed s w method
  simp only [loggingMiddleware, isStaticPath_eq path]
  cases decide (staticLit <+: path) <;> simp

/-- C12 on the empty path, on `/` and on the path of a static asset. -/
theorem static_check_in_bounds_witness :
    (sliceTo [] 8 = none ∧ isStaticPath [] = some false) ∧
    (sliceTo rootRequest.Path 8 = none ∧ isStaticPath rootRequest.Path = some false) ∧
    (sliceTo staticRequest.Path 8 = some (staticRequest.Path.take 8) ∧
      isStaticPath staticRequest.Path =
        some (decide (staticRequest.Path.take 8 = staticLit))) :=
  ⟨(static_check_in_bounds []).2.1 (by decide),
   (static_check_in_bounds rootRequest.Path).2.1 (by decide),
   (static_check_in_bounds staticRequest.Path).2.2.1 (by decide)⟩

/-! ### The steps of a load -/

/-- C13: `loadTemplates` returns no error exactly when the recursive glob parses,
or it fails and `layouts`, `pages` and `partials` parse one after the other, each
into the set returned by the step before (starting from the empty set), and then
the last set is stored.  When a fallback step fails, the error of that step is
returned and the handler is unchanged, whatever the disk would answer to the
later steps. -/
theorem loadTemplates_steps {τ : Type} (E : Engine τ) (d : Disk τ) (h : PageHandler τ) :
    ((loadTemplates E d h).2 = none ↔
      (∃ t, d.ParseGlob (filepathJoin [h.tmplDir, "**", "*.html"]) = .ok t) ∨
      (∃ e0 t1 t2 t3,
        d.ParseGlob (filepathJoin [h.tmplDir, "**", "*.html"]) = .error e0 ∧
        d.ParseGlobInto (E.New "") (filepathJoin [h.tmplDir, "layouts", "*.html"]) = .ok t1 ∧
        d.ParseGlobInto t1 (filepathJoin [h.tmplDir, "pages", "*.html"]) = .ok t2 ∧
        d.ParseGlobInto t2 (filepathJoin [h.tmplDir, "partials", "*.html"]) = .ok t3)) ∧
    (∀ t, d.ParseGlob (filepathJoin [h.tmplDir, "**", "*.html"]) = .ok t →
      loadTemplates E d h = ({ h with templates := some t }, none)) ∧
    (∀ e0, d.ParseGlob (filepathJoin [h.tmplDir, "**", "*.html"]) = .error e0 →
      (∀ e1, d.ParseGlobInto (E.New "") (filepathJoin [h.tmplDir, "layouts", "*.html"]) =
          .error e1 → loadTemplates E d h = (h, some e1)) ∧
      (∀ t1, d.ParseGlobInto (E.New "") (filepathJoin [h.tmplDir, "layouts", "*.html"]) =
          .ok t1 →
        (∀ e2, d.ParseGlobInto t1 (filepathJoin [h.tmplDir, "pages", "*.html"]) = .error e2 →
          loadTemplates E d h = (h, some e2)) ∧
        (∀ t2, d.ParseGlobInto t1 (filepathJoin [h.tmplDir, "pages", "*.html"]) = .ok t2 →
          (∀ e3, d.ParseGlobInto t2 (filepathJoin [h.tmplDir, "partials", "*.html"]) =
              .error e3 → loadTemplates E d h = (h, some e3)) ∧
          (∀ t3, d.ParseGlobInto t2 (filepathJoin [h.tmplDir, "partials", "*.html"]) =
              .ok t3 → loadTemplates E d h = ({ h with templates := some t3 }, none))))) := by
  simp only [loadTemplates, templateGlob]
  cases h0 : d.ParseGlob (filepathJoin [h.tmplDir, "**", "*.html"]) with
  | ok t => simp
  | error e0 =>
    cases h1 : d.ParseGlobInto (E.New "") (filepathJoin [h.tmplDir, "layouts", "*.html"]) with
    | error e1 => simp
    | ok t1 =>
      cases h2 : d.ParseGlobInto t1 (filepathJoin [h.tmplDir, "pages", "*.html"]) with
      | error e2 => simp [h2]
      | ok t2 =>
        cases h3 : d.ParseGlobInto t2 (filepathJoin [h.tmplDir, "partials", "*.html"]) with
        | error e3 => simp [h2, h3]
        | ok t3 => simp [h2, h3]

/-- C13 on three trees: the layout alone (the recursive glob parses), the layout
next to a broken page (the `pages` step fails and nothing is stored), and a tree
whose recursive glob fails while the three fallback steps succeed. -/
theorem loadTemplates_steps_witness :
    loadTemplates treeEngine (treeDisk [testBase]) testHandler = (testHandler, none) ∧
    loadTemplates treeEngine (treeDisk [testBase, brokenPage]) testHandler =
      (testHandler, some "template: bad.html: parse error") ∧
    (loadTemplates treeEngine (treeDisk splitTree) testHandler).2 = none :=
  ⟨(loadTemplates_steps treeEngine (treeDisk [testBase]) testHandler).2.1 _ rfl,
   (((loadTemplates_steps treeEngine (treeDisk [testBase, brokenPage]) testHandler).2.2
      "template: bad.html: parse error" rfl).2 _ rfl).1 _ rfl,
   (loadTemplates_steps treeEngine (treeDisk splitTree) testHandler).1.2
      (Or.inr ⟨"template: wip.html: parse error", _, _, _, rfl, rfl, rfl, rfl⟩)⟩

/-! ### What every operation preserves -/

/-- A reload never changes the mode or the directory, and never removes a
stored set. -/
theorem loadTemplates_keeps {τ : Type} (E : Engine τ) (d : Disk τ) (h : PageHandler τ) :
    (loadTemplates E d h).1.devMode = h.devMode ∧
    (loadTemplates E d h).1.tmplDir = h.tmplDir ∧
    ((∃ t, h.templates = some t) → ∃ t, (loadTemplates E d h).1.templates = some t) := by
  rw [loadTemplates_eq]
  cases specLoad E d h.tmplDir with
  | error e => exact ⟨rfl, rfl, fun ht => ht⟩
  | ok t => exact ⟨rfl, rfl, fun _ => ⟨t, rfl⟩⟩

/-- On a handler that holds a set, `render` returns (it does not panic) and hands
back a handler with the same mode and directory that still holds a set. -/
theorem render_keeps {τ σ : Type} (E : Engine τ) (W : ResponseWriter σ) (d : Disk τ)
    (h : PageHandler τ) (w : σ) (name : String) (data : PageData)
    (ht : ∃ t, h.templates = some t) :
    ∃ res, render E W d h w name data = some res ∧ res.1.devMode = h.devMode ∧
      res.1.tmplDir = h.tmplDir ∧ ∃ t, res.1.templates = some t := by
  obtain ⟨t, ht⟩ := ht
  cases hdev : h.devMode with
  | false =>
    rw [render_stored E W d h w name data t hdev ht]
    exact ⟨_, rfl, hdev, rfl, t, ht⟩
  | true =>
    cases hl : specLoad E d h.tmplDir with
    | error e =>
      rw [render_reload_failed E W d h w name data e hdev hl]
      exact ⟨_, rfl, hdev, rfl, t, ht⟩
    | ok t1 =>
      rw [render_reload_ok E W d h w name data t1 hdev hl]
      exact ⟨_, rfl, hdev, rfl, t1, rfl⟩

/-- A handler that holds a set keeps holding one, with its mode and directory,
through any finite sequence of renders and reloads, none of which panics. -/
theorem applyOps_keeps {τ σ : Type} (E : Engine τ) (W : ResponseWriter σ)
    (ops : List (HandlerOp τ σ)) (h : PageHandler τ) (ht : ∃ t, h.templates = some t) :
    ∃ h1, applyOps E W h ops = some h1 ∧ (∃ t, h1.templates = some t) ∧
      h1.devMode = h.devMode ∧ h1.tmplDir = h.tmplDir := by
  induction ops generalizing h with
  | nil => exact ⟨h, rfl, ht, rfl, rfl⟩
  | cons op rest ih =>
    cases op with
    | render d w name data =>
      obtain ⟨res, hres, hd, hdir, hts⟩ := render_keeps E W d h w name data ht
      obtain ⟨h1, hrun, ht1, hd1, hdir1⟩ := ih res.1 hts
      refine ⟨h1, ?_, ht1, hd1.trans hd, hdir1.trans hdir⟩
      simp only [applyOps, HandlerOp.apply, hres, Option.map_some']
      exact hrun
    | reload d =>
      obtain ⟨hd, hdir, hts⟩ := loadTemplates_keeps E d h
      obtain ⟨h1, hrun, ht1, hd1, hdir1⟩ := ih (loadTemplates E d h).1 (hts ht)
      refine ⟨h1, ?_, ht1, hd1.trans hd, hdir1.trans hdir⟩
      simp only [applyOps, HandlerOp.apply]
      exact hrun

/-- C14: a handler returned by `NewPageHandler` holds a template set, and after
any finite sequence of renders and reloads (on any disks, hence failing or
succeeding, in either mode) every operation has returned without the panic of an
absent set, a set is still stored, and `devMode` and `tmplDir` are the values
given at construction. -/
theorem handler_always_has_templates {τ σ : Type} (E : Engine τ) (W : ResponseWriter σ)
    (d0 : Disk τ) (dir : String) (dev : Bool) (h : PageHandler τ)
    (hnew : NewPageHandler E d0 dir dev = .ok h) (ops : List (HandlerOp τ σ)) :
    ((∃ t, h.templates = some t) ∧ h.devMode = dev ∧ h.tmplDir = dir) ∧
    ∃ h1, applyOps E W h ops = some h1 ∧ (∃ t, h1.templates = some t) ∧
      h1.devMode = dev ∧ h1.tmplDir = dir := by
  have hinit : (∃ t, h.templates = some t) ∧ h.devMode = dev ∧ h.tmplDir = dir := by
    simp only [NewPageHandler, loadTemplates_eq] at hnew
    cases hl : specLoad E d0 dir with
    | error e => simp [hl] at hnew
    | ok t =>
      simp [hl] at hnew
      subst hnew
      exact ⟨⟨t, rfl⟩, rfl, rfl⟩
  obtain ⟨h1, hrun, ht1, hd1, hdir1⟩ := applyOps_keeps E W ops h hinit.1
  exact ⟨hinit, h1, hrun, ht1, hd1.trans hinit.2.1, hdir1.trans hinit.2.2⟩

/-- C14 on the handler `main` builds from the test layout: a render, a reload of
the broken layout, a render on the broken layout, a reload of a tree without
the layout, and a last render. -/
theorem handler_always_has_templates_witness :
    ((∃ t, testHandler.templates = some t) ∧ testHandler.devMode = true ∧
      testHandler.tmplDir = "templates") ∧
    ∃ h1, applyOps treeEngine recorder testHandler
        [.render (treeDisk [testBase]) NewRecorder "base.html" Page.tracking.data,
         .reload (treeDisk [brokenBase]),
         .render (treeDisk [brokenBase]) NewRecorder "base.html" Page.receiver.data,
         .reload (treeDisk [pageOnly]),
         .render (treeDisk [pageOnly]) NewRecorder "base.html" Page.simulation.data] =
        some h1 ∧
      (∃ t, h1.templates = some t) ∧ h1.devMode = true ∧ h1.tmplDir = "templates" :=
  handler_always_has_templates treeEngine recorder (treeDisk [testBase]) "templates" true
    testHandler rfl _

/-! ### Concurrent renders and reloads -/

/-- Three interleavings of two production renders with one reload: both renders
before the store see the old set; a render that copies after the store sees the
new one; a reload that holds the mutex keeps the readers out until it unlocks. -/
theorem race_interleavings :
    (System.run treeEngine recorder raceStart
        [0, 1, 0, 0, 1, 2, 2, 2, 0, 0, 1, 1, 2, 2]).used =
      [testHandler.templates, none, testHandler.templates] ∧
    (System.run treeEngine recorder raceStart
        [0, 1, 0, 0, 0, 1, 1, 1, 2, 2, 2, 2, 2, 0]).used =
      [testHandler.templates, none,
        some { defs := [("base.html", [.text "<body>v2 ", .activeTab, .text "</body>"])] }] ∧
    (System.run treeEngine recorder raceStart [1, 1, 0, 0, 2, 2, 0, 2]).sh.mu =
      { writer := some 1, readers := [] } := by
  decide

/-- The parse of the interleaving model is the parse `loadTemplates` performs. -/
theorem parseTemplates_eq {τ : Type} (E : Engine τ) (d : Disk τ) (dir : String) :
    parseTemplates E d dir = specLoad E d dir := by
  simp only [parseTemplates, specLoad, templateGlob]
  cases d.ParseGlob (filepathJoin [dir, "**", "*.html"]) with
  | ok t => rfl
  | error e0 =>
    cases d.ParseGlobInto (E.New "") (filepathJoin [dir, "layouts", "*.html"]) with
    | error e1 => rfl
    | ok t1 =>
      simp only [Except.bind]
      cases d.ParseGlobInto t1 (filepathJoin [dir, "pages", "*.html"]) with
      | error e2 => rfl
      | ok t2 =>
        simp only []
        cases d.ParseGlobInto t2 (filepathJoin [dir, "partials", "*.html"]) with
        | error e3 => rfl
        | ok t3 => rfl

/-- Replacing one goroutine: what the list holds at each index afterwards. -/
theorem lookup_set {α : Type} {gs : List α} {j : Nat} {g : α} (g1 : α)
    (hg : gs[j]? = some g) (i : Nat) :
    (gs.set j g1)[i]? = if j = i then some g1 else gs[i]? := by
  have hj : j < gs.length := by
    rcases Nat.lt_or_ge j gs.length with h | h
    · exact h
    · rw [List.getElem?_eq_none h] at hg
      cases hg
  rw [List.getElem?_set]
  simp [hj]

/-- The shapes a step can have.  Besides never changing the method, the disk, the
mode and the directory, a step is either local (the shared state and the lock
status of the goroutine stay as they are), or it is `Lock`, the store, `Unlock`,
`RLock` or `RUnlock`. -/
theorem Goroutine.step_shape {τ σ : Type} (E : Engine τ) (W : ResponseWriter σ) (j : Nat)
    (sh sh1 : Shared τ) (g g1 : Goroutine τ σ) (hstep : g.step E W j sh = some (sh1, g1)) :
    g1.routine = g.routine ∧ g1.disk = g.disk ∧
    ((sh1 = sh ∧ g1.pc.holdsWrite = g.pc.holdsWrite ∧ g1.pc.holdsRead = g.pc.holdsRead ∧
        ∀ (Good : τ → Prop), (∃ u, sh.h.templates = some u ∧ Good u) →
          (g.routine.reloads sh.h.devMode = true →
            ∀ u, parseTemplates E g.disk sh.h.tmplDir = .ok u → Good u) →
          PcGood E W Good g → PcGood E W Good g1) ∨
      (∃ t, g.pc = .parsed t ∧ g1.pc = .locked t ∧ sh.mu.writer = none ∧ sh.mu.readers = [] ∧
        sh1 = { h := sh.h, mu := { writer := some j, readers := [] } }) ∨
      (∃ t, g.pc = .locked t ∧ g1.pc = .stored ∧
        sh1 = { h := { sh.h with templates := some t }, mu := sh.mu }) ∨
      (g.pc = .stored ∧ g1.pc.holdsWrite = false ∧ g1.pc.holdsRead = false ∧
        (∀ Good : τ → Prop, PcGood E W Good g1) ∧
        sh1 = { h := sh.h, mu := { writer := none, readers := sh.mu.readers } }) ∨
      (g.pc = .loaded ∧ g1.pc = .rlocked ∧ sh.mu.writer = none ∧
        sh1 = { h := sh.h, mu := { writer := none, readers := j :: sh.mu.readers } }) ∨
      (∃ o, g.pc = .copied o ∧ g1.pc = .released o ∧
        sh1 = { h := sh.h,
                mu := { writer := sh.mu.writer, readers := sh.mu.readers.erase j } })) := by
  obtain ⟨routine, disk, pc⟩ := g
  cases pc with
  | entry =>
    cases routine with
    | render w name data =>
      simp only [Goroutine.step] at hstep
      by_cases hdev : sh.h.devMode = true
      · cases hp : parseTemplates E disk sh.h.tmplDir with
        | ok t =>
          simp only [hdev, hp, if_true, Option.some.injEq, Prod.mk.injEq] at hstep
          obtain ⟨rfl, rfl⟩ := hstep
          exact ⟨rfl, rfl, Or.inl ⟨rfl, rfl, rfl, fun Good _ hpar _ => hpar hdev t rfl⟩⟩
        | error e =>
          simp only [hdev, hp, if_true, Option.some.injEq, Prod.mk.injEq] at hstep
          obtain ⟨rfl, rfl⟩ := hstep
          exact ⟨rfl, rfl, Or.inl ⟨rfl, rfl, rfl, fun Good _ _ _ => trivial⟩⟩
      · simp only [hdev, if_false, Option.some.injEq, Prod.mk.injEq] at hstep
        obtain ⟨rfl, rfl⟩ := hstep
        exact ⟨rfl, rfl, Or.inl ⟨rfl, rfl, rfl, fun Good _ _ _ => trivial⟩⟩
    | loadTemplates =>
      simp only [Goroutine.step] at hstep
      cases hp : parseTemplates E disk sh.h.tmplDir with
      | ok t =>
        simp only [hp, Option.some.injEq, Prod.mk.injEq] at hstep
        obtain ⟨rfl, rfl⟩ := hstep
        exact ⟨rfl, rfl, Or.inl ⟨rfl, rfl, rfl, fun Good _ hpar _ => hpar rfl t rfl⟩⟩
      | error e =>
        simp only [hp, Option.some.injEq, Prod.mk.injEq] at hstep
        obtain ⟨rfl, rfl⟩ := hstep
        exact ⟨rfl, rfl, Or.inl ⟨rfl, rfl, rfl, fun Good _ _ _ => trivial⟩⟩
  | parsed t =>
    simp only [Goroutine.step] at hstep
    by_cases hfree : sh.mu.writer = none ∧ sh.mu.readers = []
    · simp only [hfree, and_self, if_true, Option.some.injEq, Prod.mk.injEq] at hstep
      obtain ⟨rfl, rfl⟩ := hstep
      exact ⟨rfl, rfl, Or.inr (Or.inl ⟨t, rfl, rfl, hfree.1, hfree.2, rfl⟩)⟩
    · simp only [hfree, if_false] at hstep
      cases hstep
  | locked t =>
    simp only [Goroutine.step, Option.some.injEq, Prod.mk.injEq] at hstep
    obtain ⟨rfl, rfl⟩ := hstep
    exact ⟨rfl, rfl, Or.inr (Or.inr (Or.inl ⟨t, rfl, rfl, rfl⟩))⟩
  | stored =>
    cases routine with
    | render w name data =>
      simp only [Goroutine.step, Option.some.injEq, Prod.mk.injEq] at hstep
      obtain ⟨rfl, rfl⟩ := hstep
      exact ⟨rfl, rfl, Or.inr (Or.inr (Or.inr (Or.inl
        ⟨rfl, rfl, rfl, fun Good => trivial, rfl⟩)))⟩
    | loadTemplates =>
      simp only [Goroutine.step, Option.some.injEq, Prod.mk.injEq] at hstep
      obtain ⟨rfl, rfl⟩ := hstep
      exact ⟨rfl, rfl, Or.inr (Or.inr (Or.inr (Or.inl
        ⟨rfl, rfl, rfl, fun Good => trivial, rfl⟩)))⟩
  | loadFailed err =>
    cases routine with
    | render w name data =>
      simp only [Goroutine.step, Option.some.injEq, Prod.mk.injEq] at hstep
      obtain ⟨rfl, rfl⟩ := hstep
      exact ⟨rfl, rfl, Or.inl ⟨rfl, rfl, rfl, fun Good _ _ _ => ⟨w, name, data, rfl, rfl⟩⟩⟩
    | loadTemplates => simp [Goroutine.step] at hstep
  | loaded =>
    simp only [Goroutine.step] at hstep
    by_cases hfree : sh.mu.writer = none
    · simp only [hfree, if_true, Option.some.injEq, Prod.mk.injEq] at hstep
      obtain ⟨rfl, rfl⟩ := hstep
      exact ⟨rfl, rfl, Or.inr (Or.inr (Or.inr (Or.inr (Or.inl ⟨rfl, rfl, hfree, rfl⟩))))⟩
    · simp only [hfree, if_false] at hstep
      cases hstep
  | rlocked =>
    simp only [Goroutine.step, Option.some.injEq, Prod.mk.injEq] at hstep
    obtain ⟨rfl, rfl⟩ := hstep
    exact ⟨rfl, rfl, Or.inl ⟨rfl, rfl, rfl, fun Good hst _ _ => hst⟩⟩
  | copied o =>
    simp only [Goroutine.step, Option.some.injEq, Prod.mk.injEq] at hstep
    obtain ⟨rfl, rfl⟩ := hstep
    exact ⟨rfl, rfl, Or.inr (Or.inr (Or.inr (Or.inr (Or.inr ⟨o, rfl, rfl, rfl⟩))))⟩
  | released o =>
    cases routine with
    | render w name data =>
      cases o with
      | none =>
        simp only [Goroutine.step, Option.some.injEq, Prod.mk.injEq] at hstep
        obtain ⟨rfl, rfl⟩ := hstep
        refine ⟨rfl, rfl, Or.inl ⟨rfl, rfl, rfl, fun Good _ _ hg => ?_⟩⟩
        obtain ⟨u, hu, _⟩ := hg
        cases hu
      | some t =>
        simp only [Goroutine.step, Option.some.injEq, Prod.mk.injEq] at hstep
        obtain ⟨rfl, rfl⟩ := hstep
        refine ⟨rfl, rfl, Or.inl ⟨rfl, rfl, rfl, fun Good _ _ hg => ?_⟩⟩
        obtain ⟨u, hu, hgood⟩ := hg
        cases hu
        exact ⟨hgood, w, name, data, rfl, rfl⟩
    | loadTemplates => simp [Goroutine.step] at hstep
  | rendered u w => simp [Goroutine.step] at hstep
  | returned err => simp [Goroutine.step] at hstep
  | panicked => simp [Goroutine.step] at hstep

/-- Whether goroutine `i` stands in the write section after goroutine `j` moved. -/
theorem inWrite_set {τ σ : Type} {gs : List (Goroutine τ σ)} {j : Nat} {g : Goroutine τ σ}
    (g1 : Goroutine τ σ) (hg : gs[j]? = some g) (i : Nat) :
    InWrite (gs.set j g1) i ↔ if j = i then g1.pc.holdsWrite = true else InWrite gs i := by
  unfold InWrite
  rw [lookup_set g1 hg i]
  by_cases hji : j = i
  · simp [hji]
  · simp [hji]

/-- Whether goroutine `i` stands in the read section after goroutine `j` moved. -/
theorem inRead_set {τ σ : Type} {gs : List (Goroutine τ σ)} {j : Nat} {g : Goroutine τ σ}
    (g1 : Goroutine τ σ) (hg : gs[j]? = some g) (i : Nat) :
    InRead (gs.set j g1) i ↔ if j = i then g1.pc.holdsRead = true else InRead gs i := by
  unfold InRead
  rw [lookup_set g1 hg i]
  by_cases hji : j = i
  · simp [hji]
  · simp [hji]

/-- Goroutine `j` stands in the write section exactly when its program point says so. -/
theorem inWrite_self {τ σ : Type} {gs : List (Goroutine τ σ)} {j : Nat} {g : Goroutine τ σ}
    (hg : gs[j]? = some g) : InWrite gs j ↔ g.pc.holdsWrite = true := by
  unfold InWrite
  simp [hg]

/-- Goroutine `j` stands in the read section exactly when its program point says so. -/
theorem inRead_self {τ σ : Type} {gs : List (Goroutine τ σ)} {j : Nat} {g : Goroutine τ σ}
    (hg : gs[j]? = some g) : InRead gs j ↔ g.pc.holdsRead = true := by
  unfold InRead
  simp [hg]

/-- A move that keeps the write status of the goroutine keeps everybody's. -/
theorem inWrite_set_same {τ σ : Type} {gs : List (Goroutine τ σ)} {j : Nat}
    {g : Goroutine τ σ} (g1 : Goroutine τ σ) (hg : gs[j]? = some g)
    (hsame : g1.pc.holdsWrite = g.pc.holdsWrite) (i : Nat) :
    InWrite (gs.set j g1) i ↔ InWrite gs i := by
  rw [inWrite_set g1 hg i]
  by_cases hji : j = i
  · subst hji
    simp [inWrite_self hg, hsame]
  · simp [hji]

/-- A move that keeps the read status of the goroutine keeps everybody's. -/
theorem inRead_set_same {τ σ : Type} {gs : List (Goroutine τ σ)} {j : Nat}
    {g : Goroutine τ σ} (g1 : Goroutine τ σ) (hg : gs[j]? = some g)
    (hsame : g1.pc.holdsRead = g.pc.holdsRead) (i : Nat) :
    InRead (gs.set j g1) i ↔ InRead gs i := by
  rw [inRead_set g1 hg i]
  by_cases hji : j = i
  · subst hji
    simp [inRead_self hg, hsame]
  · simp [hji]

/-- A move that keeps the method of the goroutine keeps the list of methods. -/
theorem routines_set {τ σ : Type} {gs : List (Goroutine τ σ)} {j : Nat} {g : Goroutine τ σ}
    (g1 : Goroutine τ σ) (hg : gs[j]? = some g) (hsame : g1.routine = g.routine) :
    (gs.set j g1).map (fun x => x.routine) = gs.map (fun x => x.routine) := by
  apply List.ext_getElem?
  intro i
  rw [List.getElem?_map, List.getElem?_map, lookup_set g1 hg i]
  by_cases hji : j = i
  · subst hji
    simp [hg, hsame]
  · simp [hji]

/-- The part of the invariant that every move re-establishes in the same way. -/
theorem Coherent.rebuild {τ σ : Type} {E : Engine τ} {W : ResponseWriter σ} {dir : String}
    {dev : Bool} {Good : τ → Prop} {routines : List (Routine σ)} {s : System τ σ}
    (hinv : Coherent E W dir dev Good routines s) {j : Nat} {g : Goroutine τ σ}
    (hg : s.gs[j]? = some g) (sh1 : Shared τ) (g1 : Goroutine τ σ)
    (hdev : sh1.h.devMode = s.sh.h.devMode) (hdir : sh1.h.tmplDir = s.sh.h.tmplDir)
    (hstored : ∃ u, sh1.h.templates = some u ∧ Good u)
    (hroutine : g1.routine = g.routine) (hdisk : g1.disk = g.disk)
    (hlocal : PcGood E W Good g1)
    (hwriter : ∀ i : Nat, sh1.mu.writer = some i ↔ InWrite (s.gs.set j g1) i)
    (hreader : ∀ i : Nat, i ∈ sh1.mu.readers ↔ InRead (s.gs.set j g1) i)
    (hnodup : sh1.mu.readers.Nodup)
    (hexcl : sh1.mu.writer ≠ none → sh1.mu.readers = []) :
    Coherent E W dir dev Good routines { sh := sh1, gs := s.gs.set j g1 } where
  dev_eq := hdev.trans hinv.dev_eq
  dir_eq := hdir.trans hinv.dir_eq
  stored := hstored
  routines_eq := (routines_set g1 hg hroutine).trans hinv.routines_eq
  parses := by
    intro i x hx hre u hu
    rw [lookup_set g1 hg i] at hx
    by_cases hji : j = i
    · simp only [hji, if_true, Option.some.injEq] at hx
      subst hx
      rw [hdisk] at hu
      rw [hroutine] at hre
      exact hinv.parses j g hg hre u hu
    · simp only [hji, if_false] at hx
      exact hinv.parses i x hx hre u hu
  locals := by
    intro i x hx
    rw [lookup_set g1 hg i] at hx
    by_cases hji : j = i
    · simp only [hji, if_true, Option.some.injEq] at hx
      subst hx
      exact hlocal
    · simp only [hji, if_false] at hx
      exact hinv.locals i x hx
  writer_iff := hwriter
  reader_iff := hreader
  nodup := hnodup
  excl := hexcl

/-- The invariant survives every step of every goroutine. -/
theorem Coherent.step {τ σ : Type} {E : Engine τ} {W : ResponseWriter σ} {dir : String}
    {dev : Bool} {Good : τ → Prop} {routines : List (Routine σ)} {s : System τ σ}
    (hinv : Coherent E W dir dev Good routines s) (j : Nat) :
    Coherent E W dir dev Good routines (s.step E W j) := by
  cases hg : s.gs[j]? with
  | none =>
    simp only [System.step, hg]
    exact hinv
  | some g =>
    cases hst : g.step E W j s.sh with
    | none =>
      simp only [System.step, hg, hst]
      exact hinv
    | some res =>
      obtain ⟨sh1, g1⟩ := res
      simp only [System.step, hg, hst]
      obtain ⟨hroutine, hdisk, hshape⟩ := Goroutine.step_shape E W j s.sh sh1 g g1 hst
      have hlocal := hinv.locals j g hg
      have hwself := inWrite_self hg
      have hrself := inRead_self hg
      rcases hshape with ⟨rfl, hw, hr, hgood⟩ | ⟨t, hpc, hpc1, hwnone, hrnil, rfl⟩ |
        ⟨t, hpc, hpc1, rfl⟩ | ⟨hpc, hw1, hr1, hgood, rfl⟩ | ⟨hpc, hpc1, hwnone, rfl⟩ |
        ⟨o, hpc, hpc1, rfl⟩
      · -- a local step
        refine hinv.rebuild hg s.sh g1 rfl rfl hinv.stored hroutine hdisk ?_ ?_ ?_
          hinv.nodup hinv.excl
        · exact hgood Good hinv.stored
            (fun hre u hu => hinv.parses j g hg (by rw [← hinv.dev_eq]; exact hre) u
              (by rw [← hinv.dir_eq]; exact hu)) hlocal
        · intro i
          rw [inWrite_set_same g1 hg hw i]
          exact hinv.writer_iff i
        · intro i
          rw [inRead_set_same g1 hg hr i]
          exact hinv.reader_iff i
      · -- Lock
        have hgood : PcGood E W Good g1 := by
          simp only [PcGood, hpc, hpc1] at hlocal ⊢
          exact hlocal
        refine hinv.rebuild hg { h := s.sh.h, mu := { writer := some j, readers := [] } } g1
          rfl rfl hinv.stored hroutine hdisk hgood ?_ ?_ List.nodup_nil (fun _ => rfl)
        · intro i
          rw [inWrite_set g1 hg i]
          by_cases hji : j = i
          · subst hji
            simp [hpc1, Pc.holdsWrite]
          · have hno : ¬ InWrite s.gs i := by
              rw [← hinv.writer_iff i, hwnone]
              simp
            simp [hji, hno]
        · intro i
          rw [inRead_set_same g1 hg (by simp [hpc, hpc1, Pc.holdsRead]) i,
            ← hinv.reader_iff i, hrnil]
      · -- the store
        have hgt : Good t := by
          simp only [PcGood, hpc] at hlocal
          exact hlocal
        refine hinv.rebuild hg { h := { s.sh.h with templates := some t }, mu := s.sh.mu } g1
          rfl rfl ⟨t, rfl, hgt⟩ hroutine hdisk ?_ ?_ ?_ hinv.nodup hinv.excl
        · simp only [PcGood, hpc1]
        · intro i
          rw [inWrite_set_same g1 hg (by simp [hpc, hpc1, Pc.holdsWrite]) i]
          exact hinv.writer_iff i
        · intro i
          rw [inRead_set_same g1 hg (by simp [hpc, hpc1, Pc.holdsRead]) i]
          exact hinv.reader_iff i
      · -- Unlock
        have hwj : s.sh.mu.writer = some j := by
          rw [hinv.writer_iff j, hwself, hpc]
          rfl
        refine hinv.rebuild hg
          { h := s.sh.h, mu := { writer := none, readers := s.sh.mu.readers } } g1
          rfl rfl hinv.stored hroutine hdisk (hgood Good) ?_ ?_ hinv.nodup
          (fun h => absurd rfl h)
        · intro i
          rw [inWrite_set g1 hg i]
          by_cases hji : j = i
          · subst hji
            simp [hw1]
          · have hno : ¬ InWrite s.gs i := by
              rw [← hinv.writer_iff i, hwj]
              simpa using hji
            simp [hji, hno]
        · intro i
          rw [inRead_set_same g1 hg (by rw [hr1, hpc]; rfl) i]
          exact hinv.reader_iff i
      · -- RLock
        have hjr : j ∉ s.sh.mu.readers := by
          rw [hinv.reader_iff j, hrself, hpc]
          simp [Pc.holdsRead]
        have hgood : PcGood E W Good g1 := by
          simp only [PcGood, hpc1]
        refine hinv.rebuild hg
          { h := s.sh.h, mu := { writer := none, readers := j :: s.sh.mu.readers } } g1
          rfl rfl hinv.stored hroutine hdisk hgood ?_ ?_
          (List.nodup_cons.mpr ⟨hjr, hinv.nodup⟩) (fun h => absurd rfl h)
        · intro i
          rw [inWrite_set_same g1 hg (by simp [hpc, hpc1, Pc.holdsWrite]) i,
            ← hinv.writer_iff i, hwnone]
        · intro i
          rw [inRead_set g1 hg i]
          by_cases hji : j = i
          · subst hji
            simp [hpc1, Pc.holdsRead]
          · have hij : i ≠ j := fun h => hji h.symm
            simp [hji, hij, hinv.reader_iff i]
      · -- RUnlock
        have hgood : PcGood E W Good g1 := by
          simp only [PcGood, hpc, hpc1] at hlocal ⊢
          exact hlocal
        refine hinv.rebuild hg
          { h := s.sh.h,
            mu := { writer := s.sh.mu.writer, readers := s.sh.mu.readers.erase j } } g1
          rfl rfl hinv.stored hroutine hdisk hgood ?_ ?_ (hinv.nodup.erase j) ?_
        · intro i
          rw [inWrite_set_same g1 hg (by simp [hpc, hpc1, Pc.holdsWrite]) i]
          exact hinv.writer_iff i
        · intro i
          rw [inRead_set g1 hg i, hinv.nodup.mem_erase_iff]
          by_cases hji : j = i
          · subst hji
            simp [hpc1, Pc.holdsRead]
          · have hij : i ≠ j := fun h => hji h.symm
            simp [hji, hij, hinv.reader_iff i]
        · intro hw
          have hnil := hinv.excl hw
          show s.sh.mu.readers.erase j = []
          rw [hnil]
          rfl

/-- The invariant survives every interleaving. -/
theorem Coherent.run {τ σ : Type} {E : Engine τ} {W : ResponseWriter σ} {dir : String}
    {dev : Bool} {Good : τ → Prop} {routines : List (Routine σ)} (sched : List Nat)
    {s : System τ σ} (hinv : Coherent E W dir dev Good routines s) :
    Coherent E W dir dev Good routines (s.run E W sched) := by
  induction sched generalizing s with
  | nil => exact hinv
  | cons j rest ih => exact ih (hinv.step j)

/-- The invariant holds when the goroutines are started. -/
theorem Coherent.start {τ σ : Type} (E : Engine τ) (W : ResponseWriter σ)
    (h : PageHandler τ) (T0 : τ) (hT : h.templates = some T0)
    (calls : List (Routine σ × Disk τ)) :
    Coherent E W h.tmplDir h.devMode (Circulating E h T0 calls) (calls.map (fun c => c.1))
      (System.start h calls) where
  dev_eq := rfl
  dir_eq := rfl
  stored := ⟨T0, hT, Or.inl rfl⟩
  routines_eq := by simp [System.start]
  parses := by
    intro i g hg hre u hu
    simp only [System.start, List.getElem?_map, Option.map_eq_some'] at hg
    obtain ⟨c, hc, rfl⟩ := hg
    exact Or.inr ⟨c, List.getElem?_mem hc, hre, hu⟩
  locals := by
    intro i g hg
    simp only [System.start, List.getElem?_map, Option.map_eq_some'] at hg
    obtain ⟨c, _, rfl⟩ := hg
    trivial
  writer_iff := by
    intro i
    constructor
    · intro hw
      cases hw
    · rintro ⟨g, hg, hw⟩
      simp only [System.start, List.getElem?_map, Option.map_eq_some'] at hg
      obtain ⟨c, _, rfl⟩ := hg
      cases hw
  reader_iff := by
    intro i
    constructor
    · intro hr
      cases hr
    · rintro ⟨g, hg, hr⟩
      simp only [System.start, List.getElem?_map, Option.map_eq_some'] at hg
      obtain ⟨c, _, rfl⟩ := hg
      cases hr
  nodup := List.nodup_nil
  excl := fun _ => rfl

end SatWatch
